import Mathlib

/-!
# Tegra power management and DCE client object replay

A shallow embedding of

* `arch/nvalloc/unix/src/power-management-tegra.c`
  (`RmPowerManagementInternalTegra`, `rm_power_management`), and
* `src/kernel/gpu/dce_client/dce_client.c`
  (`dceclientStateLoad_IMPL` and its replay loop).

External collaborators (locks, work queue, `gpuStateLoad`, `gpuStateUnload`,
the RPC transport, the firmware session and the remote allocate primitive) are
not part of these files.  Each of them is an oracle that answers with a status
as a function of the whole history of calls made so far, and every call is
appended, with its arguments and its answer, to an event trace carried by the
machine state.
-/

namespace Tegra

/-! ## Status codes, actions and flags -/

/-- Status word returned by every fallible function (`NvU32`). -/
abbrev NV_STATUS := Nat

/-- Modelled from the spec: the success status; its numeric value comes from the
status-code header, which is not among the sources. -/
def NV_OK : NV_STATUS := 0

/-- Modelled from the spec: the `Generic` failure status; its numeric value comes
from the status-code header, which is not among the sources. -/
def NV_ERR_GENERIC : NV_STATUS := 0xFFFF

/-- Modelled from the spec: the `InvalidArgument` failure status; its numeric value
comes from the status-code header, which is not among the sources. -/
def NV_ERR_INVALID_ARGUMENT : NV_STATUS := 0x1F

/-- A C enum: any integer may be passed, three values are named. -/
abbrev nv_pm_action_t := Nat

/-- Modelled from the spec: the `Hibernate` action; the enum is declared in a header
that is not among the sources. -/
def NV_PM_ACTION_HIBERNATE : nv_pm_action_t := 0

/-- Modelled from the spec: the `Standby` action; the enum is declared in a header
that is not among the sources. -/
def NV_PM_ACTION_STANDBY : nv_pm_action_t := 1

/-- Modelled from the spec: the `Resume` action; the enum is declared in a header
that is not among the sources. -/
def NV_PM_ACTION_RESUME : nv_pm_action_t := 2

/-- Modelled from the spec: the `Preserving` bit of the state flags; the bit
position is declared in a header that is not among the sources. -/
def GPU_STATE_FLAGS_PRESERVING : Nat := 1

/-- Modelled from the spec: the `PmTransition` bit of the state flags; the bit
position is declared in a header that is not among the sources. -/
def GPU_STATE_FLAGS_PM_TRANSITION : Nat := 4

/-- Modelled from the spec: the `Gc6Transition` bit of the state flags; the bit
position is declared in a header that is not among the sources. -/
def GPU_STATE_FLAGS_GC6_TRANSITION : Nat := 32

/-! ## Device state -/

/-- The three property flags of the GPU object that the controller sets and
clears through `setProperty`. -/
structure OBJGPU where
  PDB_PROP_GPU_IN_PM_CODEPATH : Bool
  PDB_PROP_GPU_IN_STANDBY : Bool
  PDB_PROP_GPU_IN_PM_RESUME_CODEPATH : Bool
deriving DecidableEq, Repr

/-- The device: `pm_state.InHibernate` of its private state and the GPU object
bound to it (`NV_GET_NV_PRIV_PGPU`), `none` standing for `NULL`. -/
structure nv_state_t where
  InHibernate : Bool
  pGpu : Option OBJGPU
deriving DecidableEq, Repr

/-! ## Events and the environment -/

/-- One record per call that leaves `power-management-tegra.c`, with the
arguments that matter and the status answered.  The last constructor is a
record of a completed call of the static dispatch function itself: the action
it was given and the status it returned. -/
inductive Event where
  | os_flush_work_queue (r : NV_STATUS)
  | rmApiLockAcquire (r : NV_STATUS)
  | rmApiLockRelease
  | rmGpuLocksAcquire (r : NV_STATUS)
  | rmGpuLocksRelease
  | gpuStateUnload (pGpu : OBJGPU) (flags : Nat) (r : NV_STATUS)
  | gpuStateLoad (pGpu : OBJGPU) (flags : Nat) (r : NV_STATUS)
  | dispatch (pmAction : nv_pm_action_t) (r : NV_STATUS)
deriving DecidableEq, Repr

/-- The external collaborators.  Each answer may depend on everything that
happened before the call (the trace) and on the arguments. -/
structure Env where
  os_flush_work_queue : List Event → NV_STATUS
  rmApiLockAcquire : List Event → NV_STATUS
  rmGpuLocksAcquire : List Event → NV_STATUS
  gpuStateUnload : List Event → OBJGPU → Nat → NV_STATUS
  gpuStateLoad : List Event → OBJGPU → Nat → NV_STATUS
  IS_GPU_GC6_STATE_ENTERING : List Event → OBJGPU → Bool

/-- Machine state threaded through the code: the device and the trace. -/
structure Machine where
  nv : nv_state_t
  trace : List Event
deriving DecidableEq, Repr

/-- Append one event to the trace. -/
def Machine.emit (m : Machine) (e : Event) : Machine :=
  { m with trace := m.trace ++ [e] }

/-- The flags argument both state calls are given (lines 56-58 and 67-69). -/
def stateFlags (env : Env) (trace : List Event) (gpu : OBJGPU) : Nat :=
  if env.IS_GPU_GC6_STATE_ENTERING trace gpu then
    GPU_STATE_FLAGS_PRESERVING ||| GPU_STATE_FLAGS_PM_TRANSITION ||| GPU_STATE_FLAGS_GC6_TRANSITION
  else
    GPU_STATE_FLAGS_PRESERVING ||| GPU_STATE_FLAGS_PM_TRANSITION

/-! ## `RmPowerManagementInternalTegra` -/

/-- Body of the `switch` for `case NV_PM_ACTION_HIBERNATE:` falling through into
`case NV_PM_ACTION_STANDBY:` (lines 50-60).  `hib` tells whether the switch was
entered at the Hibernate label. -/
def standbyBranch (env : Env) (hib : Bool) (gpu : OBJGPU) (m : Machine) :
    NV_STATUS × Machine :=
  -- case NV_PM_ACTION_HIBERNATE: nvp->pm_state.InHibernate = NV_TRUE; (no break)
  let m1 : Machine := if hib then { m with nv := { m.nv with InHibernate := true } } else m
  -- case NV_PM_ACTION_STANDBY: nvp->pm_state.InHibernate = NV_FALSE;
  let m2 : Machine := { m1 with nv := { m1.nv with InHibernate := false } }
  let gpu1 : OBJGPU := { gpu with PDB_PROP_GPU_IN_PM_CODEPATH := true }
  let m3 : Machine := { m2 with nv := { m2.nv with pGpu := some gpu1 } }
  let flags := stateFlags env m3.trace gpu1
  let rmStatus := env.gpuStateUnload m3.trace gpu1 flags
  let m4 := m3.emit (Event.gpuStateUnload gpu1 flags rmStatus)
  let gpu2 : OBJGPU := { gpu1 with PDB_PROP_GPU_IN_STANDBY := true }
  (rmStatus, { m4 with nv := { m4.nv with pGpu := some gpu2 } })

/-- Body of `case NV_PM_ACTION_RESUME:` (lines 62-74). -/
def resumeBranch (env : Env) (gpu : OBJGPU) (m : Machine) : NV_STATUS × Machine :=
  if !m.nv.InHibernate then
    let gpu1 : OBJGPU := { gpu with PDB_PROP_GPU_IN_PM_RESUME_CODEPATH := true }
    let m1 : Machine := { m with nv := { m.nv with pGpu := some gpu1 } }
    let flags := stateFlags env m1.trace gpu1
    let rmStatus := env.gpuStateLoad m1.trace gpu1 flags
    let m2 := m1.emit (Event.gpuStateLoad gpu1 flags rmStatus)
    let gpu2 : OBJGPU := { gpu1 with PDB_PROP_GPU_IN_STANDBY := false }
    let gpu3 : OBJGPU := { gpu2 with PDB_PROP_GPU_IN_PM_CODEPATH := false }
    let gpu4 : OBJGPU := { gpu3 with PDB_PROP_GPU_IN_PM_RESUME_CODEPATH := false }
    (rmStatus, { m2 with nv := { m2.nv with pGpu := some gpu4 } })
  else
    -- rmStatus keeps its initial value NV_OK
    (NV_OK, m)

/-- The function without its call record: `rmStatus` starts as `NV_OK`; with no GPU
nothing happens; otherwise the `switch` on `pmAction`. -/
def internalBody (env : Env) (pmAction : nv_pm_action_t) (m : Machine) :
    NV_STATUS × Machine :=
  match m.nv.pGpu with
  | none => (NV_OK, m)
  | some gpu =>
    if pmAction = NV_PM_ACTION_HIBERNATE then standbyBranch env true gpu m
    else if pmAction = NV_PM_ACTION_STANDBY then standbyBranch env false gpu m
    else if pmAction = NV_PM_ACTION_RESUME then resumeBranch env gpu m
    else (NV_ERR_INVALID_ARGUMENT, m)

/-- The static dispatch function (lines 30-84).  On return a record of the call
(action given, status returned) is appended to the trace. -/
def RmPowerManagementInternalTegra (env : Env) (pmAction : nv_pm_action_t) (m : Machine) :
    NV_STATUS × Machine :=
  let r := internalBody env pmAction m
  (r.1, r.2.emit (Event.dispatch pmAction r.1))

/-! ## `rm_power_management` -/

/-- Lines 111-132: the dispatch, the recovery attempt, the release of the GPUs
lock.  Entered with both locks held. -/
def lockedSection (env : Env) (pmAction : nv_pm_action_t) (m : Machine) :
    NV_STATUS × Machine :=
  let r := RmPowerManagementInternalTegra env pmAction m
  let rmStatus := r.1
  let m1 :=
    if rmStatus ≠ NV_OK ∧ pmAction ≠ NV_PM_ACTION_RESUME then
      -- the status of the recovery attempt is dropped
      (RmPowerManagementInternalTegra env NV_PM_ACTION_RESUME r.2).2
    else r.2
  (rmStatus, m1.emit Event.rmGpuLocksRelease)

/-- The entry point (lines 86-145).  The assertion around each flush only logs, so
the status of a flush is recorded and otherwise ignored. -/
def rm_power_management (env : Env) (pmAction : nv_pm_action_t) (m : Machine) :
    NV_STATUS × Machine :=
  let m0 := m.emit (Event.os_flush_work_queue (env.os_flush_work_queue m.trace))
  let apiStatus := env.rmApiLockAcquire m0.trace
  let m1 := m0.emit (Event.rmApiLockAcquire apiStatus)
  let r : NV_STATUS × Machine :=
    if apiStatus = NV_OK then
      let r1 : NV_STATUS × Machine :=
        match m1.nv.pGpu with
        | some _ =>
          let gpuStatus := env.rmGpuLocksAcquire m1.trace
          let m2 := m1.emit (Event.rmGpuLocksAcquire gpuStatus)
          if gpuStatus = NV_OK then lockedSection env pmAction m2
          else (gpuStatus, m2)
        | none => (apiStatus, m1)
      (r1.1, r1.2.emit Event.rmApiLockRelease)
    else (apiStatus, m1)
  (r.1, r.2.emit (Event.os_flush_work_queue (env.os_flush_work_queue r.2.trace)))

/-! ## Observations on traces -/

/-- The events a call added to the trace. -/
def newEvents (env : Env) (pmAction : nv_pm_action_t) (m : Machine) : List Event :=
  (rm_power_management env pmAction m).2.trace.drop m.trace.length

/-- Is the event one of the four lock operations? -/
def Event.isLock : Event → Bool
  | .rmApiLockAcquire _ => true
  | .rmApiLockRelease => true
  | .rmGpuLocksAcquire _ => true
  | .rmGpuLocksRelease => true
  | _ => false

/-- The lock operations of a trace, in order. -/
def lockEvents (t : List Event) : List Event := t.filter Event.isLock

/-- The completed calls of the dispatch function, in order. -/
def dispatchCalls : List Event → List (nv_pm_action_t × NV_STATUS)
  | [] => []
  | Event.dispatch a r :: t => (a, r) :: dispatchCalls t
  | _ :: t => dispatchCalls t

/-- The statuses answered by `gpuStateUnload`, in call order. -/
def unloadStatuses : List Event → List NV_STATUS
  | [] => []
  | Event.gpuStateUnload _ _ r :: t => r :: unloadStatuses t
  | _ :: t => unloadStatuses t

/-- The statuses answered by `gpuStateLoad`, in call order. -/
def loadStatuses : List Event → List NV_STATUS
  | [] => []
  | Event.gpuStateLoad _ _ r :: t => r :: loadStatuses t
  | _ :: t => loadStatuses t

/-! ## Paths through the code

The two predicates below list, branch by branch, what a call can do.  They are
proved sound for the code (`lockedSection_path`, `rm_power_management_outcome`)
and every later theorem is a case analysis over them. -/

/-- Paths of the dispatch and the recovery attempt, started with trace `t0`,
`InHibernate = hib` and GPU object `g`: status returned, final device, events
added. -/
inductive Path (env : Env) (a : nv_pm_action_t) (hib : Bool) (g : OBJGPU) (t0 : List Event) :
    NV_STATUS → nv_state_t → List Event → Prop where
  | suspendOk (gU : OBJGPU) (fU : Nat)
      (ha : a = NV_PM_ACTION_HIBERNATE ∨ a = NV_PM_ACTION_STANDBY)
      (hgU : { g with PDB_PROP_GPU_IN_PM_CODEPATH := true } = gU)
      (hfU : stateFlags env t0 gU = fU)
      (hrU : env.gpuStateUnload t0 gU fU = NV_OK) :
      Path env a hib g t0 NV_OK
        ⟨false, some ⟨true, true, g.PDB_PROP_GPU_IN_PM_RESUME_CODEPATH⟩⟩
        [Event.gpuStateUnload gU fU NV_OK, Event.dispatch a NV_OK]
  | suspendFail (gU : OBJGPU) (fU : Nat) (rU : NV_STATUS) (gL : OBJGPU) (fL : Nat) (rL : NV_STATUS)
      (ha : a = NV_PM_ACTION_HIBERNATE ∨ a = NV_PM_ACTION_STANDBY)
      (hgU : { g with PDB_PROP_GPU_IN_PM_CODEPATH := true } = gU)
      (hfU : stateFlags env t0 gU = fU)
      (hrU : env.gpuStateUnload t0 gU fU = rU) (hne : rU ≠ NV_OK)
      (hgL : (⟨true, true, true⟩ : OBJGPU) = gL)
      (hfL : stateFlags env (t0 ++ [Event.gpuStateUnload gU fU rU, Event.dispatch a rU]) gL = fL)
      (hrL : env.gpuStateLoad
        (t0 ++ [Event.gpuStateUnload gU fU rU, Event.dispatch a rU]) gL fL = rL) :
      Path env a hib g t0 rU ⟨false, some ⟨false, false, false⟩⟩
        [Event.gpuStateUnload gU fU rU, Event.dispatch a rU,
         Event.gpuStateLoad gL fL rL, Event.dispatch NV_PM_ACTION_RESUME rL]
  | resume (gL : OBJGPU) (fL : Nat) (rL : NV_STATUS)
      (ha : a = NV_PM_ACTION_RESUME) (hh : hib = false)
      (hgL : { g with PDB_PROP_GPU_IN_PM_RESUME_CODEPATH := true } = gL)
      (hfL : stateFlags env t0 gL = fL)
      (hrL : env.gpuStateLoad t0 gL fL = rL) :
      Path env a hib g t0 rL ⟨false, some ⟨false, false, false⟩⟩
        [Event.gpuStateLoad gL fL rL, Event.dispatch NV_PM_ACTION_RESUME rL]
  | resumeHibernated
      (ha : a = NV_PM_ACTION_RESUME) (hh : hib = true) :
      Path env a hib g t0 NV_OK ⟨true, some g⟩ [Event.dispatch NV_PM_ACTION_RESUME NV_OK]
  | invalid (gL : OBJGPU) (fL : Nat) (rL : NV_STATUS)
      (h0 : a ≠ NV_PM_ACTION_HIBERNATE) (h1 : a ≠ NV_PM_ACTION_STANDBY)
      (h2 : a ≠ NV_PM_ACTION_RESUME) (hh : hib = false)
      (hgL : { g with PDB_PROP_GPU_IN_PM_RESUME_CODEPATH := true } = gL)
      (hfL : stateFlags env (t0 ++ [Event.dispatch a NV_ERR_INVALID_ARGUMENT]) gL = fL)
      (hrL : env.gpuStateLoad (t0 ++ [Event.dispatch a NV_ERR_INVALID_ARGUMENT]) gL fL = rL) :
      Path env a hib g t0 NV_ERR_INVALID_ARGUMENT ⟨false, some ⟨false, false, false⟩⟩
        [Event.dispatch a NV_ERR_INVALID_ARGUMENT,
         Event.gpuStateLoad gL fL rL, Event.dispatch NV_PM_ACTION_RESUME rL]
  | invalidHibernated
      (h0 : a ≠ NV_PM_ACTION_HIBERNATE) (h1 : a ≠ NV_PM_ACTION_STANDBY)
      (h2 : a ≠ NV_PM_ACTION_RESUME) (hh : hib = true) :
      Path env a hib g t0 NV_ERR_INVALID_ARGUMENT ⟨true, some g⟩
        [Event.dispatch a NV_ERR_INVALID_ARGUMENT, Event.dispatch NV_PM_ACTION_RESUME NV_OK]

/-- Paths of the entry point from machine `m`: status returned, final device,
events added. -/
inductive Outcome (env : Env) (a : nv_pm_action_t) (m : Machine) :
    NV_STATUS → nv_state_t → List Event → Prop where
  | apiFail (f0 ra f1 : NV_STATUS) (hra : ra ≠ NV_OK) :
      Outcome env a m ra m.nv
        [Event.os_flush_work_queue f0, Event.rmApiLockAcquire ra, Event.os_flush_work_queue f1]
  | noGpu (f0 f1 : NV_STATUS) (hg : m.nv.pGpu = none) :
      Outcome env a m NV_OK m.nv
        [Event.os_flush_work_queue f0, Event.rmApiLockAcquire NV_OK, Event.rmApiLockRelease,
         Event.os_flush_work_queue f1]
  | gpusFail (f0 rg f1 : NV_STATUS) (g : OBJGPU) (hg : m.nv.pGpu = some g) (hrg : rg ≠ NV_OK) :
      Outcome env a m rg m.nv
        [Event.os_flush_work_queue f0, Event.rmApiLockAcquire NV_OK, Event.rmGpuLocksAcquire rg,
         Event.rmApiLockRelease, Event.os_flush_work_queue f1]
  | locked (f0 f1 : NV_STATUS) (g : OBJGPU) (st : NV_STATUS) (nv1 : nv_state_t)
      (body : List Event) (hg : m.nv.pGpu = some g)
      (hp : Path env a m.nv.InHibernate g
        (m.trace ++ [Event.os_flush_work_queue f0, Event.rmApiLockAcquire NV_OK,
          Event.rmGpuLocksAcquire NV_OK]) st nv1 body) :
      Outcome env a m st nv1
        ([Event.os_flush_work_queue f0, Event.rmApiLockAcquire NV_OK,
          Event.rmGpuLocksAcquire NV_OK] ++ body ++
         [Event.rmGpuLocksRelease, Event.rmApiLockRelease, Event.os_flush_work_queue f1])

/-! ## The DCE client object registry (`dce_client.c`) -/

/-- Modelled from the spec: one slot of the registry.  The slot types (`ROOT`,
`DEVICE`, `SUBDEVICE`, `DISPLAY_COMMON`, `DISPLAY_SW`) are declared in a header
that is not among the sources; the code reads `valid`, `hClient`, `hParent`,
`hObject`, `hClass` and passes the address of the parameter block, kept here
as an uninterpreted blob. -/
structure ClientSlot where
  valid : Bool
  hClient : Nat
  hParent : Nat
  hObject : Nat
  hClass : Nat
  allocParams : List Nat
deriving DecidableEq, Repr

/-- The file-scope tables `roots`, `devices`, `subdevices` (indexed by client,
only indices below `MAX_RM_CLIENTS` are ever read) and the two singletons. -/
structure DceGlobals where
  roots : Nat → ClientSlot
  devices : Nat → ClientSlot
  subdevices : Nat → ClientSlot
  display : ClientSlot
  displaySW : ClientSlot

/-- One record per call that leaves `dce_client.c`, with its arguments and the
status answered. -/
inductive DceEvent where
  | dceclientInitRpcInfra (r : NV_STATUS)
  | dceclientDceRmInit (bLoad : Bool) (r : NV_STATUS)
  | dceclientDeinitRpcInfra
  | rpcRmApiAlloc_dce (hClient hParent hObject hClass : Nat) (params : List Nat)
      (r : NV_STATUS)
deriving DecidableEq, Repr

/-- The external collaborators of the registry; each answer may depend on the
trace so far and on the arguments. -/
structure DceEnv where
  dceclientInitRpcInfra : List DceEvent → NV_STATUS
  dceclientDceRmInit : List DceEvent → Bool → NV_STATUS
  rpcRmApiAlloc_dce : List DceEvent → Nat → Nat → Nat → Nat → List Nat → NV_STATUS

/-- The tables and the trace. -/
structure DceMachine where
  globals : DceGlobals
  trace : List DceEvent

/-- The local variable `nvStatus` and the trace, while `dceclientStateLoad_IMPL`
runs. -/
structure LoadState where
  nvStatus : NV_STATUS
  trace : List DceEvent
deriving DecidableEq, Repr

/-- The record of an allocate call made for slot `s` and answered `r`. -/
def allocCall (s : ClientSlot) (r : NV_STATUS) : DceEvent :=
  DceEvent.rpcRmApiAlloc_dce s.hClient s.hParent s.hObject s.hClass s.allocParams r

/-- One `if (slot.valid) { ... }` block of the replay (for instance lines 81-91).
`Except.error` stands for `goto out`, `Except.ok` for falling through to the next
statement. -/
def replaySlot (env : DceEnv) (s : ClientSlot) (st : LoadState) :
    Except LoadState LoadState :=
  if s.valid then
    let r := env.rpcRmApiAlloc_dce st.trace s.hClient s.hParent s.hObject s.hClass s.allocParams
    let tr := st.trace ++ [allocCall s r]
    if r ≠ NV_OK then Except.error ⟨NV_ERR_GENERIC, tr⟩
    else Except.ok ⟨r, tr⟩
  else Except.ok st

/-- The body of the `for` loop at index `i` (lines 81-115). -/
def replayIndex (env : DceEnv) (g : DceGlobals) (i : Nat) (st : LoadState) :
    Except LoadState LoadState :=
  match replaySlot env (g.roots i) st with
  | Except.error e => Except.error e
  | Except.ok st1 =>
    match replaySlot env (g.devices i) st1 with
    | Except.error e => Except.error e
    | Except.ok st2 => replaySlot env (g.subdevices i) st2

/-- The `for` loop over the indices still to visit (line 79). -/
def replayLoop (env : DceEnv) (g : DceGlobals) : List Nat → LoadState →
    Except LoadState LoadState
  | [], st => Except.ok st
  | i :: rest, st =>
    match replayIndex env g i st with
    | Except.error e => Except.error e
    | Except.ok st1 => replayLoop env g rest st1

/-- The replay: the loop `for (i = 0; i < MAX_RM_CLIENTS; i++)`, then `display`,
then `displaySW` (lines 79-141). -/
def replay (env : DceEnv) (MAX_RM_CLIENTS : Nat) (g : DceGlobals) (st : LoadState) :
    Except LoadState LoadState :=
  match replayLoop env g (List.range MAX_RM_CLIENTS) st with
  | Except.error e => Except.error e
  | Except.ok st1 =>
    match replaySlot env g.display st1 with
    | Except.error e => Except.error e
    | Except.ok st2 => replaySlot env g.displaySW st2

/-- The state-load hook (lines 45-146).  `MAX_RM_CLIENTS` is declared in a header
that is not among the sources and is a parameter; `pGpu` is read for
`PDB_PROP_GPU_IN_PM_RESUME_CODEPATH`. -/
def dceclientStateLoad_IMPL (env : DceEnv) (MAX_RM_CLIENTS : Nat) (pGpu : OBJGPU) (flags : Nat)
    (m : DceMachine) : NV_STATUS × DceMachine :=
  if flags &&& GPU_STATE_FLAGS_PM_TRANSITION = 0 then (NV_OK, m)
  else
    let r1 := env.dceclientInitRpcInfra m.trace
    let t1 := m.trace ++ [DceEvent.dceclientInitRpcInfra r1]
    if r1 ≠ NV_OK then (r1, { m with trace := t1 })
    else
      let r2 := env.dceclientDceRmInit t1 true
      let t2 := t1 ++ [DceEvent.dceclientDceRmInit true r2]
      if r2 ≠ NV_OK then (NV_ERR_GENERIC, { m with trace := t2 })
      else if pGpu.PDB_PROP_GPU_IN_PM_RESUME_CODEPATH then
        match replay env MAX_RM_CLIENTS m.globals ⟨r2, t2⟩ with
        | Except.error e => (e.nvStatus, { m with trace := e.trace })
        | Except.ok st => (st.nvStatus, { m with trace := st.trace })
      else (r2, { m with trace := t2 })

/-- The events a call of the state-load hook added to the trace. -/
def loadEvents (env : DceEnv) (MAX_RM_CLIENTS : Nat) (pGpu : OBJGPU) (flags : Nat)
    (m : DceMachine) : List DceEvent :=
  (dceclientStateLoad_IMPL env MAX_RM_CLIENTS pGpu flags m).2.trace.drop m.trace.length

/-- Is the event an allocate call? -/
def DceEvent.isAlloc : DceEvent → Bool
  | .rpcRmApiAlloc_dce _ _ _ _ _ _ => true
  | _ => false

/-- Is the event an allocate call that failed? -/
def DceEvent.allocFailed : DceEvent → Bool
  | .rpcRmApiAlloc_dce _ _ _ _ _ r => decide (r ≠ NV_OK)
  | _ => false

/-- The allocate calls of a trace, in order. -/
def allocCalls (t : List DceEvent) : List DceEvent := t.filter DceEvent.isAlloc

/-- The replay order as the specification words it: for `i` from `0` to
`MAX_RM_CLIENTS - 1`, `roots[i]`, `devices[i]`, `subdevices[i]`, then `display`,
then `displaySW`, keeping the slots whose `valid` flag is set. -/
def specReplayOrder (MAX_RM_CLIENTS : Nat) (g : DceGlobals) : List ClientSlot :=
  ((List.range MAX_RM_CLIENTS).flatMap (fun i => [g.roots i, g.devices i, g.subdevices i])
    ++ [g.display, g.displaySW]).filter (fun s => s.valid)

/-- A list of slots replayed one after the other, stopping at the first failure. -/
def replayList (env : DceEnv) : List ClientSlot → LoadState → Except LoadState LoadState
  | [], st => Except.ok st
  | s :: rest, st =>
    match replaySlot env s st with
    | Except.error e => Except.error e
    | Except.ok st1 => replayList env rest st1

/-- Paths of the state-load hook from machine `m`: status returned and events
added. -/
inductive LoadOutcome (env : DceEnv) (MAX_RM_CLIENTS : Nat) (pGpu : OBJGPU) (flags : Nat)
    (m : DceMachine) : NV_STATUS → List DceEvent → Prop where
  | notPm (hf : flags &&& GPU_STATE_FLAGS_PM_TRANSITION = 0) :
      LoadOutcome env MAX_RM_CLIENTS pGpu flags m NV_OK []
  | rpcInitFail (r1 : NV_STATUS) (hf : flags &&& GPU_STATE_FLAGS_PM_TRANSITION ≠ 0)
      (h1 : r1 ≠ NV_OK) :
      LoadOutcome env MAX_RM_CLIENTS pGpu flags m r1 [DceEvent.dceclientInitRpcInfra r1]
  | rmInitFail (r2 : NV_STATUS) (hf : flags &&& GPU_STATE_FLAGS_PM_TRANSITION ≠ 0)
      (h2 : r2 ≠ NV_OK) :
      LoadOutcome env MAX_RM_CLIENTS pGpu flags m NV_ERR_GENERIC
        [DceEvent.dceclientInitRpcInfra NV_OK, DceEvent.dceclientDceRmInit true r2]
  | noReplay (hf : flags &&& GPU_STATE_FLAGS_PM_TRANSITION ≠ 0)
      (hp : pGpu.PDB_PROP_GPU_IN_PM_RESUME_CODEPATH = false) :
      LoadOutcome env MAX_RM_CLIENTS pGpu flags m NV_OK
        [DceEvent.dceclientInitRpcInfra NV_OK, DceEvent.dceclientDceRmInit true NV_OK]
  | replayOk (hf : flags &&& GPU_STATE_FLAGS_PM_TRANSITION ≠ 0)
      (hp : pGpu.PDB_PROP_GPU_IN_PM_RESUME_CODEPATH = true) :
      LoadOutcome env MAX_RM_CLIENTS pGpu flags m NV_OK
        ([DceEvent.dceclientInitRpcInfra NV_OK, DceEvent.dceclientDceRmInit true NV_OK] ++
          (specReplayOrder MAX_RM_CLIENTS m.globals).map (fun s => allocCall s NV_OK))
  | replayFail (k : Nat) (s : ClientSlot) (r : NV_STATUS)
      (hf : flags &&& GPU_STATE_FLAGS_PM_TRANSITION ≠ 0)
      (hp : pGpu.PDB_PROP_GPU_IN_PM_RESUME_CODEPATH = true)
      (hk : (specReplayOrder MAX_RM_CLIENTS m.globals)[k]? = some s) (hr : r ≠ NV_OK) :
      LoadOutcome env MAX_RM_CLIENTS pGpu flags m NV_ERR_GENERIC
        ([DceEvent.dceclientInitRpcInfra NV_OK, DceEvent.dceclientDceRmInit true NV_OK] ++
          ((specReplayOrder MAX_RM_CLIENTS m.globals).take k).map (fun s => allocCall s NV_OK) ++
          [allocCall s r])

/-! ## Concrete environments and devices -/

/-- Every external call succeeds; no GC6 entry is in progress. -/
def envAllOk : Env :=
  ⟨fun _ => NV_OK, fun _ => NV_OK, fun _ => NV_OK, fun _ _ _ => NV_OK, fun _ _ _ => NV_OK,
    fun _ _ => false⟩

/-- Both locks are acquired, `gpuStateUnload` fails with `NV_ERR_GENERIC` and
`gpuStateLoad` fails with status `0x40`. -/
def envStateFails : Env :=
  ⟨fun _ => NV_OK, fun _ => NV_OK, fun _ => NV_OK, fun _ _ _ => NV_ERR_GENERIC,
    fun _ _ _ => 0x40, fun _ _ => false⟩

/-- The API lock cannot be acquired (status `0x55`). -/
def envApiLockFails : Env :=
  ⟨fun _ => NV_OK, fun _ => 0x55, fun _ => NV_OK, fun _ _ _ => NV_OK, fun _ _ _ => NV_OK,
    fun _ _ => false⟩

/-- The API lock is acquired, the GPUs lock cannot be (status `0x56`). -/
def envGpuLockFails : Env :=
  ⟨fun _ => NV_OK, fun _ => NV_OK, fun _ => 0x56, fun _ _ _ => NV_OK, fun _ _ _ => NV_OK,
    fun _ _ => false⟩

/-- A device with a bound GPU, all flags clear, nothing traced yet. -/
def devIdle : Machine := ⟨⟨false, some ⟨false, false, false⟩⟩, []⟩

/-- A suspended device whose private state says `InHibernate`. -/
def devHibernated : Machine := ⟨⟨true, some ⟨true, true, false⟩⟩, []⟩

/-- A device with no GPU object bound (console only). -/
def devNoGpu : Machine := ⟨⟨false, none⟩, []⟩

/-- Every external call of the registry succeeds. -/
def dceEnvAllOk : DceEnv := ⟨fun _ => NV_OK, fun _ _ => NV_OK, fun _ _ _ _ _ _ => NV_OK⟩

/-- Both inits succeed; the allocate of an object of class `0x80` fails with
status `0x51`, every other allocate succeeds. -/
def dceEnvDeviceAllocFails : DceEnv :=
  ⟨fun _ => NV_OK, fun _ _ => NV_OK,
    fun _ _ _ _ hClass _ => if hClass = 0x80 then 0x51 else NV_OK⟩

/-- Tables with one client: `roots[0]`, `devices[0]` (class `0x80`) and
`subdevices[0]` valid, `display` valid, everything else invalid. -/
def tablesOneClient : DceGlobals where
  roots := fun i => if i = 0 then ⟨true, 1, 0, 1, 0x41, [7]⟩ else ⟨false, 0, 0, 0, 0, []⟩
  devices := fun i => if i = 0 then ⟨true, 1, 1, 2, 0x80, [8]⟩ else ⟨false, 0, 0, 0, 0, []⟩
  subdevices := fun i => if i = 0 then ⟨true, 1, 2, 3, 0x2080, [9]⟩ else ⟨false, 0, 0, 0, 0, []⟩
  display := ⟨true, 1, 3, 4, 0x73, [10]⟩
  displaySW := ⟨false, 0, 0, 0, 0, []⟩

/-- A GPU object on the resume path. -/
def gpuResuming : OBJGPU := ⟨true, true, true⟩

/-! ## The state-unload and destroy hooks, sequences of requests -/

/-- The state-unload hook (lines 148-171).  A failing session deinit is only
logged; the transport is torn down next and `nvStatus` is returned. -/
def dceclientStateUnload_IMPL (env : DceEnv) (flags : Nat) (m : DceMachine) :
    NV_STATUS × DceMachine :=
  if flags &&& GPU_STATE_FLAGS_PM_TRANSITION = 0 then (NV_OK, m)
  else
    let nvStatus := env.dceclientDceRmInit m.trace false
    let t1 := m.trace ++ [DceEvent.dceclientDceRmInit false nvStatus]
    let t2 := t1 ++ [DceEvent.dceclientDeinitRpcInfra]
    (nvStatus, { m with trace := t2 })

/-- The events a call of the state-unload hook added to the trace. -/
def unloadEvents (env : DceEnv) (flags : Nat) (m : DceMachine) : List DceEvent :=
  (dceclientStateUnload_IMPL env flags m).2.trace.drop m.trace.length

/-- A slot with its `valid` flag cleared. -/
def ClientSlot.invalidate (s : ClientSlot) : ClientSlot := { s with valid := false }

/-- The `for` loop of the destroy hook over the indices still to visit (lines
186-191): at index `i` the three `valid` flags are cleared. -/
def destroyLoop : List Nat → DceGlobals → DceGlobals
  | [], g => g
  | i :: rest, g =>
    destroyLoop rest
      { g with
        roots := fun j => if j = i then (g.roots j).invalidate else g.roots j
        devices := fun j => if j = i then (g.devices j).invalidate else g.devices j
        subdevices := fun j => if j = i then (g.subdevices j).invalidate else g.subdevices j }

/-- The destroy hook (lines 173-194): transport teardown, the loop, the two
singletons. -/
def dceclientStateDestroy_IMPL (MAX_RM_CLIENTS : Nat) (m : DceMachine) : DceMachine :=
  let t1 := m.trace ++ [DceEvent.dceclientDeinitRpcInfra]
  let g1 := destroyLoop (List.range MAX_RM_CLIENTS) m.globals
  let g2 : DceGlobals := { g1 with display := g1.display.invalidate }
  let g3 : DceGlobals := { g2 with displaySW := g2.displaySW.invalidate }
  { globals := g3, trace := t1 }

/-- Is the event a work-queue flush? -/
def Event.isFlush : Event → Bool
  | .os_flush_work_queue _ => true
  | _ => false

/-- A sequence of requests on one device, one call after the other. -/
def requestSequence (env : Env) : List nv_pm_action_t → Machine → Machine
  | [], m => m
  | a :: rest, m => requestSequence env rest (rm_power_management env a m).2

/-- The statuses returned by the dispatch calls made for Resume, in call order. -/
def resumeStatuses : List Event → List NV_STATUS
  | [] => []
  | Event.dispatch a r :: t =>
    if a = NV_PM_ACTION_RESUME then r :: resumeStatuses t else resumeStatuses t
  | _ :: t => resumeStatuses t

/-- The session deinit fails with status `0x33`. -/
def dceEnvDeinitFails : DceEnv :=
  ⟨fun _ => NV_OK, fun _ bLoad => if bLoad then NV_OK else 0x33, fun _ _ _ _ _ _ => NV_OK⟩

/-- The transport init fails with status `0x22`. -/
def dceEnvRpcInitFails : DceEnv :=
  ⟨fun _ => 0x22, fun _ _ => NV_OK, fun _ _ _ _ _ _ => NV_OK⟩

/-- The transport init succeeds, the session init fails with status `0x23`. -/
def dceEnvSessionInitFails : DceEnv :=
  ⟨fun _ => NV_OK, fun _ bLoad => if bLoad then 0x23 else NV_OK, fun _ _ _ _ _ _ => NV_OK⟩

/-- A suspended device: `InStandby` and `InPmCodepath` set. -/
def devSuspended : Machine := ⟨⟨false, some ⟨true, true, false⟩⟩, []⟩

/-! ## Soundness of the path predicates -/

theorem standbyBranch_eq (env : Env) (h : Bool) (hib : Bool) (g : OBJGPU) (t0 : List Event) :
    standbyBranch env h g ⟨⟨hib, some g⟩, t0⟩ =
      (env.gpuStateUnload t0 { g with PDB_PROP_GPU_IN_PM_CODEPATH := true }
          (stateFlags env t0 { g with PDB_PROP_GPU_IN_PM_CODEPATH := true }),
        ⟨⟨false, some ⟨true, true, g.PDB_PROP_GPU_IN_PM_RESUME_CODEPATH⟩⟩,
          t0 ++ [Event.gpuStateUnload { g with PDB_PROP_GPU_IN_PM_CODEPATH := true }
            (stateFlags env t0 { g with PDB_PROP_GPU_IN_PM_CODEPATH := true })
            (env.gpuStateUnload t0 { g with PDB_PROP_GPU_IN_PM_CODEPATH := true }
              (stateFlags env t0 { g with PDB_PROP_GPU_IN_PM_CODEPATH := true }))]⟩) := by
  cases h <;> simp [standbyBranch, Machine.emit]

theorem resumeBranch_awake (env : Env) (g : OBJGPU) (t0 : List Event) :
    resumeBranch env g ⟨⟨false, some g⟩, t0⟩ =
      (env.gpuStateLoad t0 { g with PDB_PROP_GPU_IN_PM_RESUME_CODEPATH := true }
          (stateFlags env t0 { g with PDB_PROP_GPU_IN_PM_RESUME_CODEPATH := true }),
        ⟨⟨false, some ⟨false, false, false⟩⟩,
          t0 ++ [Event.gpuStateLoad { g with PDB_PROP_GPU_IN_PM_RESUME_CODEPATH := true }
            (stateFlags env t0 { g with PDB_PROP_GPU_IN_PM_RESUME_CODEPATH := true })
            (env.gpuStateLoad t0 { g with PDB_PROP_GPU_IN_PM_RESUME_CODEPATH := true }
              (stateFlags env t0 { g with PDB_PROP_GPU_IN_PM_RESUME_CODEPATH := true }))]⟩) := by
  simp [resumeBranch, Machine.emit]

theorem resumeBranch_hibernated (env : Env) (g : OBJGPU) (t0 : List Event) :
    resumeBranch env g ⟨⟨true, some g⟩, t0⟩ = (NV_OK, ⟨⟨true, some g⟩, t0⟩) := by
  simp [resumeBranch]

theorem dispatch_suspend (env : Env) (a : nv_pm_action_t) (hib : Bool) (g : OBJGPU)
    (t0 : List Event) (ha : a = NV_PM_ACTION_HIBERNATE ∨ a = NV_PM_ACTION_STANDBY) :
    RmPowerManagementInternalTegra env a ⟨⟨hib, some g⟩, t0⟩ =
      (env.gpuStateUnload t0 { g with PDB_PROP_GPU_IN_PM_CODEPATH := true }
          (stateFlags env t0 { g with PDB_PROP_GPU_IN_PM_CODEPATH := true }),
        ⟨⟨false, some ⟨true, true, g.PDB_PROP_GPU_IN_PM_RESUME_CODEPATH⟩⟩,
          t0 ++ [Event.gpuStateUnload { g with PDB_PROP_GPU_IN_PM_CODEPATH := true }
            (stateFlags env t0 { g with PDB_PROP_GPU_IN_PM_CODEPATH := true })
            (env.gpuStateUnload t0 { g with PDB_PROP_GPU_IN_PM_CODEPATH := true }
              (stateFlags env t0 { g with PDB_PROP_GPU_IN_PM_CODEPATH := true })),
            Event.dispatch a
              (env.gpuStateUnload t0 { g with PDB_PROP_GPU_IN_PM_CODEPATH := true }
                (stateFlags env t0 { g with PDB_PROP_GPU_IN_PM_CODEPATH := true }))]⟩) := by
  rcases ha with h | h
  · subst h
    simp [RmPowerManagementInternalTegra, internalBody, standbyBranch_eq, Machine.emit]
  · subst h
    simp [RmPowerManagementInternalTegra, internalBody, standbyBranch_eq, Machine.emit,
      NV_PM_ACTION_STANDBY, NV_PM_ACTION_HIBERNATE]

theorem dispatch_resume_awake (env : Env) (g : OBJGPU) (t0 : List Event) :
    RmPowerManagementInternalTegra env NV_PM_ACTION_RESUME ⟨⟨false, some g⟩, t0⟩ =
      (env.gpuStateLoad t0 { g with PDB_PROP_GPU_IN_PM_RESUME_CODEPATH := true }
          (stateFlags env t0 { g with PDB_PROP_GPU_IN_PM_RESUME_CODEPATH := true }),
        ⟨⟨false, some ⟨false, false, false⟩⟩,
          t0 ++ [Event.gpuStateLoad { g with PDB_PROP_GPU_IN_PM_RESUME_CODEPATH := true }
            (stateFlags env t0 { g with PDB_PROP_GPU_IN_PM_RESUME_CODEPATH := true })
            (env.gpuStateLoad t0 { g with PDB_PROP_GPU_IN_PM_RESUME_CODEPATH := true }
              (stateFlags env t0 { g with PDB_PROP_GPU_IN_PM_RESUME_CODEPATH := true })),
            Event.dispatch NV_PM_ACTION_RESUME
              (env.gpuStateLoad t0 { g with PDB_PROP_GPU_IN_PM_RESUME_CODEPATH := true }
                (stateFlags env t0 { g with PDB_PROP_GPU_IN_PM_RESUME_CODEPATH := true }))]⟩) := by
  simp [RmPowerManagementInternalTegra, internalBody, resumeBranch_awake, Machine.emit,
    NV_PM_ACTION_RESUME, NV_PM_ACTION_STANDBY, NV_PM_ACTION_HIBERNATE]

theorem dispatch_resume_hibernated (env : Env) (g : OBJGPU) (t0 : List Event) :
    RmPowerManagementInternalTegra env NV_PM_ACTION_RESUME ⟨⟨true, some g⟩, t0⟩ =
      (NV_OK, ⟨⟨true, some g⟩, t0 ++ [Event.dispatch NV_PM_ACTION_RESUME NV_OK]⟩) := by
  simp [RmPowerManagementInternalTegra, internalBody, resumeBranch_hibernated, Machine.emit,
    NV_PM_ACTION_RESUME, NV_PM_ACTION_STANDBY, NV_PM_ACTION_HIBERNATE]

theorem dispatch_invalid (env : Env) (a : nv_pm_action_t) (hib : Bool) (g : OBJGPU)
    (t0 : List Event) (h0 : a ≠ NV_PM_ACTION_HIBERNATE) (h1 : a ≠ NV_PM_ACTION_STANDBY)
    (h2 : a ≠ NV_PM_ACTION_RESUME) :
    RmPowerManagementInternalTegra env a ⟨⟨hib, some g⟩, t0⟩ =
      (NV_ERR_INVALID_ARGUMENT,
        ⟨⟨hib, some g⟩, t0 ++ [Event.dispatch a NV_ERR_INVALID_ARGUMENT]⟩) := by
  simp [RmPowerManagementInternalTegra, internalBody, Machine.emit, h0, h1, h2]

theorem lockedSection_path (env : Env) (a : nv_pm_action_t) (hib : Bool) (g : OBJGPU)
    (t0 : List Event) :
    ∃ st nv1 body,
      lockedSection env a ⟨⟨hib, some g⟩, t0⟩ =
        (st, ⟨nv1, t0 ++ body ++ [Event.rmGpuLocksRelease]⟩) ∧
      Path env a hib g t0 st nv1 body := by
  by_cases hs : a = NV_PM_ACTION_HIBERNATE ∨ a = NV_PM_ACTION_STANDBY
  · have hne : a ≠ NV_PM_ACTION_RESUME := by
      rcases hs with h | h <;> subst h <;> decide
    by_cases hu : env.gpuStateUnload t0 { g with PDB_PROP_GPU_IN_PM_CODEPATH := true }
          (stateFlags env t0 { g with PDB_PROP_GPU_IN_PM_CODEPATH := true }) = NV_OK
    · refine ⟨NV_OK, _, _, ?_, Path.suspendOk _ _ hs rfl rfl hu⟩
      simp [lockedSection, dispatch_suspend env a hib g t0 hs, hu, Machine.emit]
    · refine ⟨_, _, _, ?_, Path.suspendFail _ _ _ _ _ _ hs rfl rfl rfl hu rfl rfl rfl⟩
      simp [lockedSection, dispatch_suspend env a hib g t0 hs, hu, hne, Machine.emit,
        dispatch_resume_awake]
  · have h0 : a ≠ NV_PM_ACTION_HIBERNATE := fun h => hs (Or.inl h)
    have h1 : a ≠ NV_PM_ACTION_STANDBY := fun h => hs (Or.inr h)
    by_cases h2 : a = NV_PM_ACTION_RESUME
    · subst h2
      cases hib with
      | false =>
        refine ⟨_, _, _, ?_, Path.resume _ _ _ rfl rfl rfl rfl rfl⟩
        simp [lockedSection, Machine.emit, dispatch_resume_awake]
      | true =>
        refine ⟨_, _, _, ?_, Path.resumeHibernated rfl rfl⟩
        simp [lockedSection, Machine.emit, dispatch_resume_hibernated]
    · have hinv : NV_ERR_INVALID_ARGUMENT ≠ NV_OK := by decide
      cases hib with
      | false =>
        refine ⟨_, _, _, ?_, Path.invalid _ _ _ h0 h1 h2 rfl rfl rfl rfl⟩
        simp [lockedSection, Machine.emit, dispatch_invalid env a _ g t0 h0 h1 h2, h2, hinv,
          dispatch_resume_awake]
      | true =>
        refine ⟨_, _, _, ?_, Path.invalidHibernated h0 h1 h2 rfl⟩
        simp [lockedSection, Machine.emit, dispatch_invalid env a _ g t0 h0 h1 h2, h2, hinv,
          dispatch_resume_hibernated]

theorem rm_power_management_outcome (env : Env) (a : nv_pm_action_t) (m : Machine) :
    ∃ st nv1 evs,
      rm_power_management env a m = (st, ⟨nv1, m.trace ++ evs⟩) ∧
      Outcome env a m st nv1 evs := by
  obtain ⟨⟨hib, pg⟩, tr⟩ := m
  generalize hf0 : env.os_flush_work_queue tr = f0
  by_cases hapi : env.rmApiLockAcquire (tr ++ [Event.os_flush_work_queue f0]) = NV_OK
  · cases pg with
    | none =>
      refine ⟨_, _, _, ?_, Outcome.noGpu f0
        (env.os_flush_work_queue (tr ++ [Event.os_flush_work_queue f0,
          Event.rmApiLockAcquire NV_OK, Event.rmApiLockRelease])) rfl⟩
      simp only [rm_power_management, Machine.emit, hf0, hapi, if_true]
      simp
    | some g =>
      by_cases hg : env.rmGpuLocksAcquire
          (tr ++ [Event.os_flush_work_queue f0] ++ [Event.rmApiLockAcquire NV_OK]) = NV_OK
      · obtain ⟨st, nv1, body, hl, hp⟩ := lockedSection_path env a hib g
          (tr ++ [Event.os_flush_work_queue f0,
            Event.rmApiLockAcquire NV_OK, Event.rmGpuLocksAcquire NV_OK])
        refine ⟨_, _, _, ?_, Outcome.locked f0
          (env.os_flush_work_queue (tr ++ [Event.os_flush_work_queue f0,
            Event.rmApiLockAcquire NV_OK, Event.rmGpuLocksAcquire NV_OK] ++ body ++
            [Event.rmGpuLocksRelease, Event.rmApiLockRelease])) g st nv1 body rfl hp⟩
        simp only [rm_power_management, Machine.emit, hf0, hapi, hg, if_true]
        simp [hl]
      · refine ⟨_, _, _, ?_, Outcome.gpusFail f0 _
          (env.os_flush_work_queue (tr ++ [Event.os_flush_work_queue f0,
            Event.rmApiLockAcquire NV_OK, Event.rmGpuLocksAcquire (env.rmGpuLocksAcquire
              (tr ++ [Event.os_flush_work_queue f0] ++ [Event.rmApiLockAcquire NV_OK])),
            Event.rmApiLockRelease])) g rfl hg⟩
        simp only [rm_power_management, Machine.emit, hf0, hapi, hg, if_true, if_false]
        simp
  · refine ⟨_, _, _, ?_, Outcome.apiFail f0 _
      (env.os_flush_work_queue (tr ++ [Event.os_flush_work_queue f0,
        Event.rmApiLockAcquire (env.rmApiLockAcquire (tr ++ [Event.os_flush_work_queue f0]))]))
      hapi⟩
    simp only [rm_power_management, Machine.emit, hf0, hapi, if_false]
    simp

theorem suspend_ne_resume {a : nv_pm_action_t}
    (ha : a = NV_PM_ACTION_HIBERNATE ∨ a = NV_PM_ACTION_STANDBY) : a ≠ NV_PM_ACTION_RESUME := by
  rcases ha with h | h <;> subst h <;> decide

/-- Every call decomposes into status, final device and added events along one
of the paths of `Outcome`. -/
theorem run_cases (env : Env) (a : nv_pm_action_t) (m : Machine) :
    ∃ st nv1 evs,
      (rm_power_management env a m).1 = st ∧ (rm_power_management env a m).2.nv = nv1 ∧
      newEvents env a m = evs ∧ Outcome env a m st nv1 evs := by
  obtain ⟨st, nv1, evs, h, ho⟩ := rm_power_management_outcome env a m
  refine ⟨st, nv1, evs, ?_, ?_, ?_, ho⟩
  · rw [h]
  · rw [h]
  · simp [newEvents, h]

/-! ## The power transition controller -/

/-- C1: with both locks acquired (the GPUs lock is only ever tried with a bound
GPU), when the dispatch of an action
other than Resume returns a failure status `r`, the dispatch function is called
exactly once more, for Resume, right after it, and the caller gets `r` whatever
that second call returns; for Resume the dispatch is called exactly once and
its status is returned. -/
theorem C1_recovery_keeps_original_status (env : Env) (a : nv_pm_action_t) (m : Machine)
    (r : NV_STATUS)
    (hapi : Event.rmApiLockAcquire NV_OK ∈ newEvents env a m)
    (hgpus : Event.rmGpuLocksAcquire NV_OK ∈ newEvents env a m)
    (hfirst : (dispatchCalls (newEvents env a m)).head? = some (a, r)) :
    (a ≠ NV_PM_ACTION_RESUME → r ≠ NV_OK →
      (∃ r2, dispatchCalls (newEvents env a m) = [(a, r), (NV_PM_ACTION_RESUME, r2)]) ∧
      (rm_power_management env a m).1 = r) ∧
    (a = NV_PM_ACTION_RESUME →
      dispatchCalls (newEvents env a m) = [(NV_PM_ACTION_RESUME, r)] ∧
      (rm_power_management env a m).1 = r) := by
  obtain ⟨st, nv1, evs, h1, -, h3, ho⟩ := run_cases env a m
  rw [h1]
  rw [h3] at hapi hgpus hfirst ⊢
  cases ho with
  | apiFail f0 ra f1 hra => simp at hgpus
  | noGpu f0 f1 hg => simp at hgpus
  | gpusFail f0 rg f1 g hg hrg => simp [dispatchCalls] at hfirst
  | locked f0 f1 g st nv1 body hg hp =>
    cases hp with
    | suspendOk gU fU ha hgU hfU hrU =>
      have := suspend_ne_resume ha
      simp_all [dispatchCalls]
    | suspendFail gU fU rU gL fL rL ha hgU hfU hrU hne hgL hfL hrL =>
      have := suspend_ne_resume ha
      simp_all [dispatchCalls]
    | resume gL fL rL ha hh hgL hfL hrL => simp_all [dispatchCalls]
    | resumeHibernated ha hh => simp_all [dispatchCalls]
    | invalid gL fL rL h0 h1 h2 hh hgL hfL hrL => simp_all [dispatchCalls]
    | invalidHibernated h0 h1 h2 hh => simp_all [dispatchCalls]

/-- C2: on every call the lock operations are balanced and nested.  The API lock
is released exactly once iff it was acquired, the GPUs lock is released exactly
once iff it was acquired, and the lock operations of the call are one of four
sequences: a failed API acquire alone; API acquire, API release; API acquire,
failed GPUs acquire, API release (the GPUs failure status is returned); API
acquire, GPUs acquire, GPUs release, API release. -/
theorem C2_locks_balanced_and_nested (env : Env) (a : nv_pm_action_t) (m : Machine) :
    ((newEvents env a m).count Event.rmApiLockRelease ≤ 1 ∧
      ((newEvents env a m).count Event.rmApiLockRelease = 1 ↔
        Event.rmApiLockAcquire NV_OK ∈ newEvents env a m)) ∧
    ((newEvents env a m).count Event.rmGpuLocksRelease ≤ 1 ∧
      ((newEvents env a m).count Event.rmGpuLocksRelease = 1 ↔
        Event.rmGpuLocksAcquire NV_OK ∈ newEvents env a m)) ∧
    ((∃ ra, ra ≠ NV_OK ∧ lockEvents (newEvents env a m) = [Event.rmApiLockAcquire ra]) ∨
      lockEvents (newEvents env a m) =
        [Event.rmApiLockAcquire NV_OK, Event.rmApiLockRelease] ∨
      (∃ rg, rg ≠ NV_OK ∧ (rm_power_management env a m).1 = rg ∧
        lockEvents (newEvents env a m) =
          [Event.rmApiLockAcquire NV_OK, Event.rmGpuLocksAcquire rg, Event.rmApiLockRelease]) ∨
      lockEvents (newEvents env a m) =
        [Event.rmApiLockAcquire NV_OK, Event.rmGpuLocksAcquire NV_OK,
          Event.rmGpuLocksRelease, Event.rmApiLockRelease]) ∧
    (∀ rg, rg ≠ NV_OK → Event.rmGpuLocksAcquire rg ∈ newEvents env a m →
      (rm_power_management env a m).1 = rg ∧
      (newEvents env a m).count Event.rmApiLockRelease = 1) := by
  obtain ⟨st, nv1, evs, h1, -, h3, ho⟩ := run_cases env a m
  rw [h1, h3]
  cases ho with
  | apiFail f0 ra f1 hra =>
    simp [lockEvents, Event.isLock, List.count_cons, hra]
    exact fun h => hra h.symm
  | noGpu f0 f1 hg =>
    simp [lockEvents, Event.isLock, List.count_cons]
  | gpusFail f0 rg f1 g hg hrg =>
    simp [lockEvents, Event.isLock, List.count_cons, hrg]
    exact ⟨fun h => hrg h.symm, fun rg2 _ h => h.symm⟩
  | locked f0 f1 g st nv1 body hg hp =>
    cases hp <;>
      simp [lockEvents, Event.isLock, List.count_cons] <;>
      intro rg h2 h3 <;> exact absurd h3 h2

/-- C1 at a concrete input: Hibernate, unload fails with `NV_ERR_GENERIC`, the
recovery load fails with `0x40`; the caller gets `NV_ERR_GENERIC`. -/
theorem C1_recovery_witness :
    dispatchCalls (newEvents envStateFails NV_PM_ACTION_HIBERNATE devIdle) =
      [(NV_PM_ACTION_HIBERNATE, NV_ERR_GENERIC), (NV_PM_ACTION_RESUME, 0x40)] ∧
    (rm_power_management envStateFails NV_PM_ACTION_HIBERNATE devIdle).1 = NV_ERR_GENERIC :=
  ⟨by decide,
   ((C1_recovery_keeps_original_status envStateFails NV_PM_ACTION_HIBERNATE devIdle
      NV_ERR_GENERIC (by decide) (by decide) (by decide)).1 (by decide) (by decide)).2⟩

/-- C2 at a concrete input: the GPUs lock fails with `0x56`; the API lock is
still released once and `0x56` is returned. -/
theorem C2_locks_witness :
    (rm_power_management envGpuLockFails NV_PM_ACTION_STANDBY devIdle).1 = 0x56 ∧
    (newEvents envGpuLockFails NV_PM_ACTION_STANDBY devIdle).count Event.rmApiLockRelease = 1 :=
  (C2_locks_balanced_and_nested envGpuLockFails NV_PM_ACTION_STANDBY devIdle).2.2.2
    0x56 (by decide) (by decide)

/-- C3, as stated, fails: a Hibernate request on a device with a bound GPU, both
locks acquired, whose `gpuStateUnload` fails, runs the recovery resume and ends
with `InStandby` and `InPmCodepath` false. -/
theorem C3_hibernate_counterexample :
    devIdle.nv.pGpu = some ⟨false, false, false⟩ ∧
    Event.rmApiLockAcquire NV_OK ∈ newEvents envStateFails NV_PM_ACTION_HIBERNATE devIdle ∧
    Event.rmGpuLocksAcquire NV_OK ∈ newEvents envStateFails NV_PM_ACTION_HIBERNATE devIdle ∧
    unloadStatuses (newEvents envStateFails NV_PM_ACTION_HIBERNATE devIdle) = [NV_ERR_GENERIC] ∧
    (rm_power_management envStateFails NV_PM_ACTION_HIBERNATE devIdle).2.nv =
      ⟨false, some ⟨false, false, false⟩⟩ := by
  decide

/-- C3, amended: a Hibernate request with both locks acquired always ends with
`InHibernate` false; it ends with `InStandby` and `InPmCodepath` true when
`gpuStateUnload` succeeded, and with both false (after the recovery resume) when
`gpuStateUnload` failed. -/
theorem C3_hibernate_final_state (env : Env) (m : Machine)
    (hapi : Event.rmApiLockAcquire NV_OK ∈ newEvents env NV_PM_ACTION_HIBERNATE m)
    (hgpus : Event.rmGpuLocksAcquire NV_OK ∈ newEvents env NV_PM_ACTION_HIBERNATE m) :
    (rm_power_management env NV_PM_ACTION_HIBERNATE m).2.nv.InHibernate = false ∧
    (∃ r, unloadStatuses (newEvents env NV_PM_ACTION_HIBERNATE m) = [r] ∧
      (r = NV_OK →
        (rm_power_management env NV_PM_ACTION_HIBERNATE m).2.nv.pGpu.map
            OBJGPU.PDB_PROP_GPU_IN_STANDBY = some true ∧
        (rm_power_management env NV_PM_ACTION_HIBERNATE m).2.nv.pGpu.map
            OBJGPU.PDB_PROP_GPU_IN_PM_CODEPATH = some true) ∧
      (r ≠ NV_OK →
        (rm_power_management env NV_PM_ACTION_HIBERNATE m).2.nv.pGpu.map
            OBJGPU.PDB_PROP_GPU_IN_STANDBY = some false ∧
        (rm_power_management env NV_PM_ACTION_HIBERNATE m).2.nv.pGpu.map
            OBJGPU.PDB_PROP_GPU_IN_PM_CODEPATH = some false)) := by
  obtain ⟨st, nv1, evs, -, h2, h3, ho⟩ := run_cases env NV_PM_ACTION_HIBERNATE m
  rw [h2]
  rw [h3] at hapi hgpus ⊢
  cases ho with
  | apiFail f0 ra f1 hra => simp at hgpus
  | noGpu f0 f1 hg => simp at hgpus
  | gpusFail f0 rg f1 g hg hrg => simp at hgpus; exact absurd hgpus.symm hrg
  | locked f0 f1 g st nv1 body hg hp =>
    cases hp with
    | suspendOk gU fU ha hgU hfU hrU => simp [unloadStatuses]
    | suspendFail gU fU rU gL fL rL ha hgU hfU hrU hne hgL hfL hrL =>
      simp [unloadStatuses, hne]
    | resume gL fL rL ha hh hgL hfL hrL => exact absurd ha (by decide)
    | resumeHibernated ha hh => exact absurd ha (by decide)
    | invalid gL fL rL n0 n1 n2 hh hgL hfL hrL => exact absurd rfl n0
    | invalidHibernated n0 n1 n2 hh => exact absurd rfl n0

/-- C3 amended, at a concrete input: Hibernate with every external call
succeeding ends with `InHibernate` false, `InStandby` and `InPmCodepath` true. -/
theorem C3_hibernate_witness :
    (rm_power_management envAllOk NV_PM_ACTION_HIBERNATE devIdle).2.nv.InHibernate = false ∧
    (rm_power_management envAllOk NV_PM_ACTION_HIBERNATE devIdle).2.nv.pGpu =
      some ⟨true, true, false⟩ :=
  ⟨(C3_hibernate_final_state envAllOk devIdle (by decide) (by decide)).1, by decide⟩

/-- C4: a Standby request with both locks acquired whose `gpuStateUnload`
succeeds returns success, ends with `InStandby` and `InPmCodepath` true, and
calls `gpuStateUnload` exactly once and `gpuStateLoad` not at all. -/
theorem C4_standby_success (env : Env) (m : Machine)
    (hapi : Event.rmApiLockAcquire NV_OK ∈ newEvents env NV_PM_ACTION_STANDBY m)
    (hgpus : Event.rmGpuLocksAcquire NV_OK ∈ newEvents env NV_PM_ACTION_STANDBY m)
    (hok : ∀ r ∈ unloadStatuses (newEvents env NV_PM_ACTION_STANDBY m), r = NV_OK) :
    (rm_power_management env NV_PM_ACTION_STANDBY m).1 = NV_OK ∧
    (rm_power_management env NV_PM_ACTION_STANDBY m).2.nv.pGpu.map
        OBJGPU.PDB_PROP_GPU_IN_STANDBY = some true ∧
    (rm_power_management env NV_PM_ACTION_STANDBY m).2.nv.pGpu.map
        OBJGPU.PDB_PROP_GPU_IN_PM_CODEPATH = some true ∧
    unloadStatuses (newEvents env NV_PM_ACTION_STANDBY m) = [NV_OK] ∧
    loadStatuses (newEvents env NV_PM_ACTION_STANDBY m) = [] := by
  obtain ⟨st, nv1, evs, h1, h2, h3, ho⟩ := run_cases env NV_PM_ACTION_STANDBY m
  rw [h1, h2]
  rw [h3] at hapi hgpus hok ⊢
  cases ho with
  | apiFail f0 ra f1 hra => simp at hgpus
  | noGpu f0 f1 hg => simp at hgpus
  | gpusFail f0 rg f1 g hg hrg => simp at hgpus; exact absurd hgpus.symm hrg
  | locked f0 f1 g st nv1 body hg hp =>
    cases hp with
    | suspendOk gU fU ha hgU hfU hrU => simp [unloadStatuses, loadStatuses]
    | suspendFail gU fU rU gL fL rL ha hgU hfU hrU hne hgL hfL hrL =>
      simp [unloadStatuses] at hok
      exact absurd hok hne
    | resume gL fL rL ha hh hgL hfL hrL => exact absurd ha (by decide)
    | resumeHibernated ha hh => exact absurd ha (by decide)
    | invalid gL fL rL n0 n1 n2 hh hgL hfL hrL => exact absurd rfl n1
    | invalidHibernated n0 n1 n2 hh => exact absurd rfl n1

/-- C4 at a concrete input: Standby with every external call succeeding. -/
theorem C4_standby_witness :
    (rm_power_management envAllOk NV_PM_ACTION_STANDBY devIdle).1 = NV_OK ∧
    (rm_power_management envAllOk NV_PM_ACTION_STANDBY devIdle).2.nv.pGpu =
      some ⟨true, true, false⟩ :=
  ⟨(C4_standby_success envAllOk devIdle (by decide) (by decide) (by decide)).1, by decide⟩

/-- C5: a Resume request with both locks acquired and `InHibernate` false on
entry calls `gpuStateLoad` exactly once, returns exactly the status it answered,
and ends with `InStandby`, `InPmCodepath` and `InPmResumeCodepath` all false,
whatever that status is. -/
theorem C5_resume_clears_flags (env : Env) (m : Machine)
    (hapi : Event.rmApiLockAcquire NV_OK ∈ newEvents env NV_PM_ACTION_RESUME m)
    (hgpus : Event.rmGpuLocksAcquire NV_OK ∈ newEvents env NV_PM_ACTION_RESUME m)
    (hhib : m.nv.InHibernate = false) :
    (rm_power_management env NV_PM_ACTION_RESUME m).2.nv.pGpu = some ⟨false, false, false⟩ ∧
    loadStatuses (newEvents env NV_PM_ACTION_RESUME m) =
      [(rm_power_management env NV_PM_ACTION_RESUME m).1] := by
  obtain ⟨st, nv1, evs, h1, h2, h3, ho⟩ := run_cases env NV_PM_ACTION_RESUME m
  rw [h1, h2]
  rw [h3] at hapi hgpus ⊢
  cases ho with
  | apiFail f0 ra f1 hra => simp at hgpus
  | noGpu f0 f1 hg => simp at hgpus
  | gpusFail f0 rg f1 g hg hrg => simp at hgpus; exact absurd hgpus.symm hrg
  | locked f0 f1 g st nv1 body hg hp =>
    cases hp with
    | suspendOk gU fU ha hgU hfU hrU => exact absurd ha (by decide)
    | suspendFail gU fU rU gL fL rL ha hgU hfU hrU hne hgL hfL hrL =>
      exact absurd ha (by decide)
    | resume gL fL rL ha hh hgL hfL hrL => simp [loadStatuses]
    | resumeHibernated ha hh => rw [hhib] at hh; exact absurd hh (by decide)
    | invalid gL fL rL n0 n1 n2 hh hgL hfL hrL => exact absurd rfl n2
    | invalidHibernated n0 n1 n2 hh => exact absurd rfl n2

/-- C5 at a concrete input: Resume of a suspended device whose `gpuStateLoad`
fails with `0x40`; the flags are cleared and `0x40` is returned. -/
theorem C5_resume_witness :
    (rm_power_management envStateFails NV_PM_ACTION_RESUME
        ⟨⟨false, some ⟨true, true, false⟩⟩, []⟩).2.nv.pGpu = some ⟨false, false, false⟩ ∧
    (rm_power_management envStateFails NV_PM_ACTION_RESUME
        ⟨⟨false, some ⟨true, true, false⟩⟩, []⟩).1 = 0x40 :=
  ⟨(C5_resume_clears_flags envStateFails ⟨⟨false, some ⟨true, true, false⟩⟩, []⟩
      (by decide) (by decide) rfl).1, by decide⟩

/-- C6: a Resume request with both locks acquired and `InHibernate` true on entry
is a no-op returning success: the dispatch runs once and answers `NV_OK`,
neither `gpuStateLoad` nor `gpuStateUnload` is called, and the device
(`InHibernate` and the three flags) is unchanged. -/
theorem C6_resume_hibernated_noop (env : Env) (m : Machine)
    (hapi : Event.rmApiLockAcquire NV_OK ∈ newEvents env NV_PM_ACTION_RESUME m)
    (hgpus : Event.rmGpuLocksAcquire NV_OK ∈ newEvents env NV_PM_ACTION_RESUME m)
    (hhib : m.nv.InHibernate = true) :
    (rm_power_management env NV_PM_ACTION_RESUME m).1 = NV_OK ∧
    dispatchCalls (newEvents env NV_PM_ACTION_RESUME m) = [(NV_PM_ACTION_RESUME, NV_OK)] ∧
    loadStatuses (newEvents env NV_PM_ACTION_RESUME m) = [] ∧
    unloadStatuses (newEvents env NV_PM_ACTION_RESUME m) = [] ∧
    (rm_power_management env NV_PM_ACTION_RESUME m).2.nv = m.nv := by
  obtain ⟨st, nv1, evs, h1, h2, h3, ho⟩ := run_cases env NV_PM_ACTION_RESUME m
  rw [h1, h2]
  rw [h3] at hapi hgpus ⊢
  cases ho with
  | apiFail f0 ra f1 hra => simp at hgpus
  | noGpu f0 f1 hg => simp at hgpus
  | gpusFail f0 rg f1 g hg hrg => simp at hgpus; exact absurd hgpus.symm hrg
  | locked f0 f1 g st nv1 body hg hp =>
    cases hp with
    | suspendOk gU fU ha hgU hfU hrU => exact absurd ha (by decide)
    | suspendFail gU fU rU gL fL rL ha hgU hfU hrU hne hgL hfL hrL =>
      exact absurd ha (by decide)
    | resume gL fL rL ha hh hgL hfL hrL => rw [hhib] at hh; exact absurd hh (by decide)
    | resumeHibernated ha hh =>
      obtain ⟨⟨hib, pg⟩, tr⟩ := m
      simp only at hg hhib
      subst hg hhib
      simp [loadStatuses, unloadStatuses, dispatchCalls]
    | invalid gL fL rL n0 n1 n2 hh hgL hfL hrL => exact absurd rfl n2
    | invalidHibernated n0 n1 n2 hh => exact absurd rfl n2

/-- C6 at a concrete input: Resume of a device marked `InHibernate`. -/
theorem C6_resume_hibernated_witness :
    (rm_power_management envAllOk NV_PM_ACTION_RESUME devHibernated).1 = NV_OK ∧
    (rm_power_management envAllOk NV_PM_ACTION_RESUME devHibernated).2.nv = devHibernated.nv :=
  ⟨(C6_resume_hibernated_noop envAllOk devHibernated (by decide) (by decide) rfl).1,
   (C6_resume_hibernated_noop envAllOk devHibernated (by decide) (by decide) rfl).2.2.2.2⟩

/-- C7, as stated, fails: with no GPU bound the API lock is acquired (and then
released) before the GPU object is looked up. -/
theorem C7_no_gpu_counterexample :
    devNoGpu.nv.pGpu = none ∧
    (rm_power_management envAllOk NV_PM_ACTION_STANDBY devNoGpu).1 = NV_OK ∧
    lockEvents (newEvents envAllOk NV_PM_ACTION_STANDBY devNoGpu) =
      [Event.rmApiLockAcquire NV_OK, Event.rmApiLockRelease] := by
  decide

/-- C7, amended: for every action, a call on a device with no bound GPU tries the
API lock; if that fails its status is returned, otherwise the lock is released
and success is returned.  The GPUs lock is never tried, the dispatch and the
state load and unload are never called, and the device is unchanged. -/
theorem C7_no_gpu (env : Env) (a : nv_pm_action_t) (m : Machine)
    (hnone : m.nv.pGpu = none) :
    (((rm_power_management env a m).1 = NV_OK ∧
        lockEvents (newEvents env a m) =
          [Event.rmApiLockAcquire NV_OK, Event.rmApiLockRelease]) ∨
      ((rm_power_management env a m).1 ≠ NV_OK ∧
        lockEvents (newEvents env a m) =
          [Event.rmApiLockAcquire (rm_power_management env a m).1])) ∧
    dispatchCalls (newEvents env a m) = [] ∧
    unloadStatuses (newEvents env a m) = [] ∧
    loadStatuses (newEvents env a m) = [] ∧
    (rm_power_management env a m).2.nv = m.nv := by
  obtain ⟨st, nv1, evs, h1, h2, h3, ho⟩ := run_cases env a m
  rw [h1, h2, h3]
  cases ho with
  | apiFail f0 ra f1 hra =>
    simp [lockEvents, Event.isLock, dispatchCalls, unloadStatuses, loadStatuses, hra]
  | noGpu f0 f1 hg =>
    simp [lockEvents, Event.isLock, dispatchCalls, unloadStatuses, loadStatuses]
  | gpusFail f0 rg f1 g hg hrg => rw [hnone] at hg; exact absurd hg (by simp)
  | locked f0 f1 g st nv1 body hg hp => rw [hnone] at hg; exact absurd hg (by simp)

/-- C7 amended, at a concrete input: Standby on a console-only device. -/
theorem C7_no_gpu_witness :
    dispatchCalls (newEvents envAllOk NV_PM_ACTION_STANDBY devNoGpu) = [] ∧
    (rm_power_management envAllOk NV_PM_ACTION_STANDBY devNoGpu).2.nv = devNoGpu.nv :=
  ⟨(C7_no_gpu envAllOk NV_PM_ACTION_STANDBY devNoGpu rfl).2.1,
   (C7_no_gpu envAllOk NV_PM_ACTION_STANDBY devNoGpu rfl).2.2.2.2⟩

/-- C8: when the API lock acquisition fails with status `r`, the call returns
`r`, the device (`InHibernate` and the three flags) is unchanged, the only lock
operation of the call is that failed acquire (the GPUs lock is never tried, the
API lock is not released), and neither the dispatch nor `gpuStateUnload` nor
`gpuStateLoad` is called. -/
theorem C8_api_lock_failure (env : Env) (a : nv_pm_action_t) (m : Machine) (r : NV_STATUS)
    (hr : r ≠ NV_OK) (hfail : Event.rmApiLockAcquire r ∈ newEvents env a m) :
    (rm_power_management env a m).1 = r ∧
    (rm_power_management env a m).2.nv = m.nv ∧
    lockEvents (newEvents env a m) = [Event.rmApiLockAcquire r] ∧
    dispatchCalls (newEvents env a m) = [] ∧
    unloadStatuses (newEvents env a m) = [] ∧
    loadStatuses (newEvents env a m) = [] := by
  obtain ⟨st, nv1, evs, h1, h2, h3, ho⟩ := run_cases env a m
  rw [h1, h2]
  rw [h3] at hfail ⊢
  cases ho with
  | apiFail f0 ra f1 hra =>
    simp at hfail
    subst hfail
    simp [lockEvents, Event.isLock, dispatchCalls, unloadStatuses, loadStatuses]
  | noGpu f0 f1 hg => simp at hfail; exact absurd hfail hr
  | gpusFail f0 rg f1 g hg hrg => simp at hfail; exact absurd hfail hr
  | locked f0 f1 g st nv1 body hg hp =>
    cases hp <;> simp at hfail <;> exact absurd hfail hr

/-- C8 at a concrete input: the API lock fails with `0x55`. -/
theorem C8_api_lock_failure_witness :
    (rm_power_management envApiLockFails NV_PM_ACTION_STANDBY devIdle).1 = 0x55 ∧
    (rm_power_management envApiLockFails NV_PM_ACTION_STANDBY devIdle).2.nv = devIdle.nv :=
  ⟨(C8_api_lock_failure envApiLockFails NV_PM_ACTION_STANDBY devIdle 0x55
      (by decide) (by decide)).1,
   (C8_api_lock_failure envApiLockFails NV_PM_ACTION_STANDBY devIdle 0x55
      (by decide) (by decide)).2.1⟩

/-! ## The replay as a list of slots -/

theorem replayList_append (env : DceEnv) (l1 l2 : List ClientSlot) (st : LoadState) :
    replayList env (l1 ++ l2) st =
      match replayList env l1 st with
      | Except.error e => Except.error e
      | Except.ok st1 => replayList env l2 st1 := by
  induction l1 generalizing st with
  | nil => simp [replayList]
  | cons s rest ih =>
    simp only [List.cons_append, replayList]
    cases replaySlot env s st with
    | error e => rfl
    | ok st1 => exact ih st1

theorem replayIndex_eq (env : DceEnv) (g : DceGlobals) (i : Nat) (st : LoadState) :
    replayIndex env g i st = replayList env [g.roots i, g.devices i, g.subdevices i] st := by
  simp only [replayIndex, replayList]
  cases replaySlot env (g.roots i) st with
  | error e => rfl
  | ok st1 =>
    dsimp only
    cases replaySlot env (g.devices i) st1 with
    | error e => rfl
    | ok st2 =>
      dsimp only
      cases replaySlot env (g.subdevices i) st2 with
      | error e => rfl
      | ok st3 => rfl

theorem replayLoop_eq (env : DceEnv) (g : DceGlobals) (idx : List Nat) (st : LoadState) :
    replayLoop env g idx st =
      replayList env (idx.flatMap (fun i => [g.roots i, g.devices i, g.subdevices i])) st := by
  induction idx generalizing st with
  | nil => simp [replayLoop, replayList]
  | cons i rest ih =>
    rw [List.flatMap_cons, replayList_append, ← replayIndex_eq]
    simp only [replayLoop]
    cases replayIndex env g i st with
    | error e => rfl
    | ok st1 => exact ih st1

theorem replay_eq (env : DceEnv) (n : Nat) (g : DceGlobals) (st : LoadState) :
    replay env n g st =
      replayList env ((List.range n).flatMap (fun i => [g.roots i, g.devices i, g.subdevices i])
        ++ [g.display, g.displaySW]) st := by
  rw [replayList_append, ← replayLoop_eq]
  simp only [replay, replayList]
  cases replayLoop env g (List.range n) st with
  | error e => rfl
  | ok st1 =>
    dsimp only
    cases replaySlot env g.display st1 with
    | error e => rfl
    | ok st2 =>
      dsimp only
      cases replaySlot env g.displaySW st2 with
      | error e => rfl
      | ok st3 => rfl

/-- A replay of a list of slots either allocates every valid slot in order, or
stops right after the first failing allocate with `NV_ERR_GENERIC`. -/
theorem replayList_cases (env : DceEnv) (l : List ClientSlot) (t : List DceEvent) :
    replayList env l ⟨NV_OK, t⟩ =
        Except.ok ⟨NV_OK, t ++ (l.filter (fun s => s.valid)).map (fun s => allocCall s NV_OK)⟩ ∨
    ∃ k s r, (l.filter (fun s => s.valid))[k]? = some s ∧ r ≠ NV_OK ∧
      replayList env l ⟨NV_OK, t⟩ =
        Except.error ⟨NV_ERR_GENERIC,
          t ++ ((l.filter (fun s => s.valid)).take k).map (fun s => allocCall s NV_OK) ++
            [allocCall s r]⟩ := by
  induction l generalizing t with
  | nil => left; simp [replayList]
  | cons s rest ih =>
    by_cases hv : s.valid = true
    · by_cases hr : env.rpcRmApiAlloc_dce t s.hClient s.hParent s.hObject s.hClass
          s.allocParams = NV_OK
      · have hstep : replaySlot env s ⟨NV_OK, t⟩ = Except.ok ⟨NV_OK, t ++ [allocCall s NV_OK]⟩ := by
          simp [replaySlot, hv, hr]
        rcases ih (t ++ [allocCall s NV_OK]) with h | ⟨k, s2, r, hk, hne, h⟩
        · left
          simp [replayList, hstep, h, hv]
        · right
          refine ⟨k + 1, s2, r, ?_, hne, ?_⟩
          · simp [hv, hk]
          · simp [replayList, hstep, h, hv]
      · right
        refine ⟨0, s, _, ?_, hr, ?_⟩
        · simp [hv]
        · simp [replayList, replaySlot, hv, hr]
    · have hstep : replaySlot env s ⟨NV_OK, t⟩ = Except.ok ⟨NV_OK, t⟩ := by
        simp [replaySlot, hv]
      rcases ih t with h | ⟨k, s2, r, hk, hne, h⟩
      · left
        simp [replayList, hstep, h, hv]
      · right
        refine ⟨k, s2, r, ?_, hne, ?_⟩
        · simp [hv, hk]
        · simp [replayList, hstep, h, hv]

/-- Every call of the state-load hook decomposes into status and added events
along one of the paths of `LoadOutcome`; the tables are not written. -/
theorem stateLoad_cases (env : DceEnv) (n : Nat) (pGpu : OBJGPU) (flags : Nat) (m : DceMachine) :
    ∃ st evs,
      (dceclientStateLoad_IMPL env n pGpu flags m).1 = st ∧
      (dceclientStateLoad_IMPL env n pGpu flags m).2.trace = m.trace ++ evs ∧
      loadEvents env n pGpu flags m = evs ∧
      LoadOutcome env n pGpu flags m st evs := by
  have key : ∃ st evs,
      (dceclientStateLoad_IMPL env n pGpu flags m).1 = st ∧
      (dceclientStateLoad_IMPL env n pGpu flags m).2.trace = m.trace ++ evs ∧
      LoadOutcome env n pGpu flags m st evs := by
    by_cases hf : flags &&& GPU_STATE_FLAGS_PM_TRANSITION = 0
    · exact ⟨NV_OK, [], by simp [dceclientStateLoad_IMPL, hf],
        by simp [dceclientStateLoad_IMPL, hf], LoadOutcome.notPm hf⟩
    · by_cases h1 : env.dceclientInitRpcInfra m.trace = NV_OK
      · by_cases h2 : env.dceclientDceRmInit
            (m.trace ++ [DceEvent.dceclientInitRpcInfra NV_OK]) true = NV_OK
        · cases hp : pGpu.PDB_PROP_GPU_IN_PM_RESUME_CODEPATH with
          | false =>
            exact ⟨NV_OK, _, by simp [dceclientStateLoad_IMPL, hf, h1, h2, hp],
              by simp [dceclientStateLoad_IMPL, hf, h1, h2, hp], LoadOutcome.noReplay hf hp⟩
          | true =>
            have hrep := replayList_cases env
              ((List.range n).flatMap
                (fun i => [m.globals.roots i, m.globals.devices i, m.globals.subdevices i])
                ++ [m.globals.display, m.globals.displaySW])
              (m.trace ++ [DceEvent.dceclientInitRpcInfra NV_OK,
                DceEvent.dceclientDceRmInit true NV_OK])
            rw [← replay_eq] at hrep
            rcases hrep with h | ⟨k, s, r, hk, hr, h⟩
            · refine ⟨NV_OK, _, ?_, ?_, LoadOutcome.replayOk hf hp⟩
              · simp [dceclientStateLoad_IMPL, hf, h1, h2, hp, h]
              · simp [dceclientStateLoad_IMPL, hf, h1, h2, hp, h, specReplayOrder]
            · refine ⟨NV_ERR_GENERIC, _, ?_, ?_, LoadOutcome.replayFail k s r hf hp hk hr⟩
              · simp [dceclientStateLoad_IMPL, hf, h1, h2, hp, h]
              · simp [dceclientStateLoad_IMPL, hf, h1, h2, hp, h, specReplayOrder]
        · exact ⟨NV_ERR_GENERIC, _, by simp [dceclientStateLoad_IMPL, hf, h1, h2],
            by simp [dceclientStateLoad_IMPL, hf, h1, h2], LoadOutcome.rmInitFail _ hf h2⟩
      · exact ⟨_, _, by simp [dceclientStateLoad_IMPL, hf, h1],
          by simp [dceclientStateLoad_IMPL, hf, h1], LoadOutcome.rpcInitFail _ hf h1⟩
  obtain ⟨st, evs, ha, hb, hc⟩ := key
  exact ⟨st, evs, ha, hb, by simp [loadEvents, hb], hc⟩

theorem allocCalls_map_allocCall (l : List ClientSlot) (r : NV_STATUS) :
    allocCalls (l.map (fun s => allocCall s r)) = l.map (fun s => allocCall s r) := by
  induction l with
  | nil => rfl
  | cons s rest ih =>
    simp only [allocCalls] at ih
    simp [allocCalls, allocCall, DceEvent.isAlloc, ih]

theorem allocFailed_of_mem_map {l : List ClientSlot} {e : DceEvent}
    (h : e ∈ l.map (fun s => allocCall s NV_OK)) : e.allocFailed = false := by
  obtain ⟨s, -, rfl⟩ := List.mem_map.mp h
  simp [allocCall, DceEvent.allocFailed]

theorem isAlloc_of_mem_map {l : List ClientSlot} {r : NV_STATUS} {e : DceEvent}
    (h : e ∈ l.map (fun s => allocCall s r)) : e.isAlloc = true := by
  obtain ⟨s, -, rfl⟩ := List.mem_map.mp h
  rfl

/-! ## The registry replay -/

/-- C9: when the state-load hook is called with the PM-transition bit set, the
session init succeeds (it is only ever called after a successful transport
init) and no allocate call fails, the status is `NV_OK` and the allocate calls are
exactly: with `InPmResumeCodepath` set, one call per valid slot in the order
`roots[i]`, `devices[i]`, `subdevices[i]` for ascending `i`, then `display`, then
`displaySW`, each with that slot's handles, class and parameters; with
`InPmResumeCodepath` clear, none. -/
theorem C9_replay_order (env : DceEnv) (n : Nat) (pGpu : OBJGPU) (flags : Nat) (m : DceMachine)
    (hpm : flags &&& GPU_STATE_FLAGS_PM_TRANSITION ≠ 0)
    (hrm : DceEvent.dceclientDceRmInit true NV_OK ∈ loadEvents env n pGpu flags m)
    (hall : ∀ e ∈ loadEvents env n pGpu flags m, e.allocFailed = false) :
    (dceclientStateLoad_IMPL env n pGpu flags m).1 = NV_OK ∧
    allocCalls (loadEvents env n pGpu flags m) =
      (if pGpu.PDB_PROP_GPU_IN_PM_RESUME_CODEPATH then
        (specReplayOrder n m.globals).map (fun s => allocCall s NV_OK)
      else []) ∧
    ∀ s ∈ specReplayOrder n m.globals, s.valid = true := by
  obtain ⟨st, evs, h1, -, h3, ho⟩ := stateLoad_cases env n pGpu flags m
  rw [h1]
  rw [h3] at hrm hall ⊢
  refine ⟨?_, ?_, ?_⟩
  · cases ho with
    | notPm hf => rfl
    | rpcInitFail r1 hf h1 => simp at hrm
    | rmInitFail r2 hf h2 => simp at hrm; exact absurd hrm.symm h2
    | noReplay hf hp => rfl
    | replayOk hf hp => rfl
    | replayFail k s r hf hp hk hr =>
      have := hall (allocCall s r) (by simp)
      simp [allocCall, DceEvent.allocFailed, hr] at this
  · cases ho with
    | notPm hf => exact absurd hf hpm
    | rpcInitFail r1 hf h1 => simp at hrm
    | rmInitFail r2 hf h2 => simp at hrm; exact absurd hrm.symm h2
    | noReplay hf hp => simp [hp, allocCalls, DceEvent.isAlloc]
    | replayOk hf hp =>
      have hm := allocCalls_map_allocCall (specReplayOrder n m.globals) NV_OK
      simp only [allocCalls] at hm
      simp [hp, allocCalls, DceEvent.isAlloc, hm]
    | replayFail k s r hf hp hk hr =>
      have := hall (allocCall s r) (by simp)
      simp [allocCall, DceEvent.allocFailed, hr] at this
  · intro s hs
    simpa [specReplayOrder] using (List.mem_filter.mp hs).2

/-- C10: when some allocate call of the state-load hook fails (which can only
happen with the PM-transition bit set, both inits successful and
`InPmResumeCodepath` set), the status is `NV_ERR_GENERIC` whatever status the
failing call answered, and the allocate calls made are exactly the first `k`
slots of the replay order, each answered `NV_OK`, followed by the failing call
for slot number `k`: nothing after it is attempted. -/
theorem C10_replay_abort (env : DceEnv) (n : Nat) (pGpu : OBJGPU) (flags : Nat) (m : DceMachine)
    (hfail : ∃ e ∈ loadEvents env n pGpu flags m, e.allocFailed = true) :
    (dceclientStateLoad_IMPL env n pGpu flags m).1 = NV_ERR_GENERIC ∧
    ∃ k s r, (specReplayOrder n m.globals)[k]? = some s ∧ r ≠ NV_OK ∧
      allocCalls (loadEvents env n pGpu flags m) =
        ((specReplayOrder n m.globals).take k).map (fun s => allocCall s NV_OK) ++
          [allocCall s r] := by
  obtain ⟨st, evs, h1, -, h3, ho⟩ := stateLoad_cases env n pGpu flags m
  rw [h1]
  rw [h3] at hfail ⊢
  obtain ⟨e, he, hef⟩ := hfail
  cases ho with
  | notPm hf => simp at he
  | rpcInitFail r1 hf h1 =>
    simp at he; subst he; simp [DceEvent.allocFailed] at hef
  | rmInitFail r2 hf h2 =>
    simp at he; rcases he with he | he <;> subst he <;> simp [DceEvent.allocFailed] at hef
  | noReplay hf hp =>
    simp at he; rcases he with he | he <;> subst he <;> simp [DceEvent.allocFailed] at hef
  | replayOk hf hp =>
    rcases List.mem_append.mp he with he | he
    · simp at he; rcases he with he | he <;> subst he <;> simp [DceEvent.allocFailed] at hef
    · rw [allocFailed_of_mem_map he] at hef
      exact absurd hef (by decide)
  | replayFail k s r hf hp hk hr =>
    refine ⟨rfl, k, s, r, hk, hr, ?_⟩
    have hm := allocCalls_map_allocCall ((specReplayOrder n m.globals).take k) NV_OK
    simp only [allocCalls] at hm
    have hA : List.filter DceEvent.isAlloc
        [DceEvent.dceclientInitRpcInfra NV_OK, DceEvent.dceclientDceRmInit true NV_OK] = [] := rfl
    have hC : List.filter DceEvent.isAlloc [allocCall s r] = [allocCall s r] := rfl
    rw [allocCalls, List.filter_append, List.filter_append, hA, hm, hC, List.nil_append]

/-- C9 at a concrete input: one client and a valid display, every call
succeeding; the four valid slots are allocated in replay order. -/
theorem C9_replay_order_witness :
    (dceclientStateLoad_IMPL dceEnvAllOk 2 gpuResuming 5 ⟨tablesOneClient, []⟩).1 = NV_OK ∧
    allocCalls (loadEvents dceEnvAllOk 2 gpuResuming 5 ⟨tablesOneClient, []⟩) =
      [DceEvent.rpcRmApiAlloc_dce 1 0 1 0x41 [7] NV_OK,
       DceEvent.rpcRmApiAlloc_dce 1 1 2 0x80 [8] NV_OK,
       DceEvent.rpcRmApiAlloc_dce 1 2 3 0x2080 [9] NV_OK,
       DceEvent.rpcRmApiAlloc_dce 1 3 4 0x73 [10] NV_OK] :=
  ⟨(C9_replay_order dceEnvAllOk 2 gpuResuming 5 ⟨tablesOneClient, []⟩
      (by decide) (by decide) (by decide)).1, by decide⟩

/-- C10 at a concrete input: the allocate of `devices[0]` fails with `0x51`;
`roots[0]` was allocated, nothing after `devices[0]` is attempted and the hook
returns `NV_ERR_GENERIC`. -/
theorem C10_replay_abort_witness :
    (dceclientStateLoad_IMPL dceEnvDeviceAllocFails 2 gpuResuming 5
      ⟨tablesOneClient, []⟩).1 = NV_ERR_GENERIC ∧
    allocCalls (loadEvents dceEnvDeviceAllocFails 2 gpuResuming 5 ⟨tablesOneClient, []⟩) =
      [DceEvent.rpcRmApiAlloc_dce 1 0 1 0x41 [7] NV_OK,
       DceEvent.rpcRmApiAlloc_dce 1 1 2 0x80 [8] 0x51] :=
  ⟨(C10_replay_abort dceEnvDeviceAllocFails 2 gpuResuming 5 ⟨tablesOneClient, []⟩
      ⟨DceEvent.rpcRmApiAlloc_dce 1 1 2 0x80 [8] 0x51, by decide, by decide⟩).1, by decide⟩

/-! ## The lifecycle hooks of the registry -/

theorem stateLoad_globals (env : DceEnv) (n : Nat) (pGpu : OBJGPU) (flags : Nat)
    (m : DceMachine) :
    (dceclientStateLoad_IMPL env n pGpu flags m).2.globals = m.globals := by
  unfold dceclientStateLoad_IMPL
  by_cases hf : flags &&& GPU_STATE_FLAGS_PM_TRANSITION = 0
  · simp [hf]
  · by_cases h1 : env.dceclientInitRpcInfra m.trace = NV_OK
    · by_cases h2 : env.dceclientDceRmInit
          (m.trace ++ [DceEvent.dceclientInitRpcInfra NV_OK]) true = NV_OK
      · cases hp : pGpu.PDB_PROP_GPU_IN_PM_RESUME_CODEPATH with
        | false => simp [hf, h1, h2, hp]
        | true =>
          simp only [hf, h1, h2, hp, if_true, if_false, ne_eq, not_true_eq_false]
          cases replay env n m.globals
            ⟨NV_OK, m.trace ++ [DceEvent.dceclientInitRpcInfra NV_OK] ++
              [DceEvent.dceclientDceRmInit true NV_OK]⟩ with
          | error e => rfl
          | ok st => rfl
      · simp [hf, h1, h2]
    · simp [hf, h1]

theorem destroyLoop_roots (idx : List Nat) (g : DceGlobals) (j : Nat) :
    (destroyLoop idx g).roots j = if j ∈ idx then (g.roots j).invalidate else g.roots j := by
  induction idx generalizing g with
  | nil => simp [destroyLoop]
  | cons i rest ih =>
    rw [destroyLoop, ih]
    by_cases hj : j = i <;> by_cases hr : j ∈ rest <;>
      simp [hj, hr, ClientSlot.invalidate]

theorem destroyLoop_devices (idx : List Nat) (g : DceGlobals) (j : Nat) :
    (destroyLoop idx g).devices j =
      if j ∈ idx then (g.devices j).invalidate else g.devices j := by
  induction idx generalizing g with
  | nil => simp [destroyLoop]
  | cons i rest ih =>
    rw [destroyLoop, ih]
    by_cases hj : j = i <;> by_cases hr : j ∈ rest <;>
      simp [hj, hr, ClientSlot.invalidate]

theorem destroyLoop_subdevices (idx : List Nat) (g : DceGlobals) (j : Nat) :
    (destroyLoop idx g).subdevices j =
      if j ∈ idx then (g.subdevices j).invalidate else g.subdevices j := by
  induction idx generalizing g with
  | nil => simp [destroyLoop]
  | cons i rest ih =>
    rw [destroyLoop, ih]
    by_cases hj : j = i <;> by_cases hr : j ∈ rest <;>
      simp [hj, hr, ClientSlot.invalidate]

theorem destroyLoop_singletons (idx : List Nat) (g : DceGlobals) :
    (destroyLoop idx g).display = g.display ∧ (destroyLoop idx g).displaySW = g.displaySW := by
  induction idx generalizing g with
  | nil => simp [destroyLoop]
  | cons i rest ih =>
    rw [destroyLoop]
    exact ih _

/-- C11: when the flags do not contain the PM-transition bit, the state-load and
the state-unload hook each return `NV_OK` and leave the machine exactly as it
was: no event is added to the trace (no init, deinit or allocate call) and no
slot is written, whatever the GPU properties are. -/
theorem C11_hooks_noop_without_pm (env : DceEnv) (n : Nat) (pGpu : OBJGPU) (flags : Nat)
    (m : DceMachine) (hf : flags &&& GPU_STATE_FLAGS_PM_TRANSITION = 0) :
    dceclientStateLoad_IMPL env n pGpu flags m = (NV_OK, m) ∧
    dceclientStateUnload_IMPL env flags m = (NV_OK, m) ∧
    loadEvents env n pGpu flags m = [] ∧
    unloadEvents env flags m = [] := by
  simp [dceclientStateLoad_IMPL, dceclientStateUnload_IMPL, loadEvents, unloadEvents, hf]

/-- C11 at a concrete input: flags `Preserving` only, `InPmResumeCodepath` set and
valid slots present; nothing is called. -/
theorem C11_hooks_noop_witness :
    (dceclientStateLoad_IMPL dceEnvAllOk 2 gpuResuming 1 ⟨tablesOneClient, []⟩).1 = NV_OK ∧
    loadEvents dceEnvAllOk 2 gpuResuming 1 ⟨tablesOneClient, []⟩ = [] ∧
    unloadEvents dceEnvAllOk 1 ⟨tablesOneClient, []⟩ = [] :=
  ⟨congrArg Prod.fst
      (C11_hooks_noop_without_pm dceEnvAllOk 2 gpuResuming 1 ⟨tablesOneClient, []⟩
        (by decide)).1,
   (C11_hooks_noop_without_pm dceEnvAllOk 2 gpuResuming 1 ⟨tablesOneClient, []⟩
      (by decide)).2.2⟩

/-- C12: after the destroy hook every `valid` flag is false (`roots[i]`,
`devices[i]`, `subdevices[i]` for every `i` below `MAX_RM_CLIENTS`, `display`,
`displaySW`), the transport teardown is the one and only event added, and every
slot is its old self with at most `valid` cleared (slots at or beyond
`MAX_RM_CLIENTS` are not touched).  No property or flag is consulted. -/
theorem C12_destroy_clears_valid (n : Nat) (m : DceMachine) :
    (∀ i, i < n →
      ((dceclientStateDestroy_IMPL n m).globals.roots i).valid = false ∧
      ((dceclientStateDestroy_IMPL n m).globals.devices i).valid = false ∧
      ((dceclientStateDestroy_IMPL n m).globals.subdevices i).valid = false) ∧
    (dceclientStateDestroy_IMPL n m).globals.display.valid = false ∧
    (dceclientStateDestroy_IMPL n m).globals.displaySW.valid = false ∧
    (dceclientStateDestroy_IMPL n m).trace = m.trace ++ [DceEvent.dceclientDeinitRpcInfra] ∧
    (∀ i,
      (dceclientStateDestroy_IMPL n m).globals.roots i =
        (if i < n then (m.globals.roots i).invalidate else m.globals.roots i) ∧
      (dceclientStateDestroy_IMPL n m).globals.devices i =
        (if i < n then (m.globals.devices i).invalidate else m.globals.devices i) ∧
      (dceclientStateDestroy_IMPL n m).globals.subdevices i =
        (if i < n then (m.globals.subdevices i).invalidate else m.globals.subdevices i)) ∧
    (dceclientStateDestroy_IMPL n m).globals.display = m.globals.display.invalidate ∧
    (dceclientStateDestroy_IMPL n m).globals.displaySW = m.globals.displaySW.invalidate := by
  have hs := destroyLoop_singletons (List.range n) m.globals
  refine ⟨?_, ?_, ?_, rfl, ?_, ?_, ?_⟩
  · intro i hi
    simp [dceclientStateDestroy_IMPL, destroyLoop_roots, destroyLoop_devices,
      destroyLoop_subdevices, hi, ClientSlot.invalidate]
  · simp [dceclientStateDestroy_IMPL, ClientSlot.invalidate]
  · simp [dceclientStateDestroy_IMPL, ClientSlot.invalidate]
  · intro i
    simp [dceclientStateDestroy_IMPL, destroyLoop_roots, destroyLoop_devices,
      destroyLoop_subdevices]
  · simp [dceclientStateDestroy_IMPL, hs.1]
  · simp [dceclientStateDestroy_IMPL, hs.2]

/-- C13: for every flags value, registry content and environment, the
state-unload and the state-load hook return the tables exactly as they found
them: every slot keeps its `valid` flag, handles, class and parameters. -/
theorem C13_hooks_preserve_registry (env : DceEnv) (n : Nat) (pGpu : OBJGPU) (flags : Nat)
    (m : DceMachine) :
    (dceclientStateUnload_IMPL env flags m).2.globals = m.globals ∧
    (dceclientStateLoad_IMPL env n pGpu flags m).2.globals = m.globals := by
  refine ⟨?_, stateLoad_globals env n pGpu flags m⟩
  unfold dceclientStateUnload_IMPL
  by_cases hf : flags &&& GPU_STATE_FLAGS_PM_TRANSITION = 0 <;> simp [hf]

/-- C14, as stated, fails: with the PM-transition bit set and a session deinit
failing with `0x33`, the state-unload hook tears the transport down and then
returns `0x33`, not success. -/
theorem C14_unload_counterexample :
    (5 : Nat) &&& GPU_STATE_FLAGS_PM_TRANSITION ≠ 0 ∧
    unloadEvents dceEnvDeinitFails 5 ⟨tablesOneClient, []⟩ =
      [DceEvent.dceclientDceRmInit false 0x33, DceEvent.dceclientDeinitRpcInfra] ∧
    (dceclientStateUnload_IMPL dceEnvDeinitFails 5 ⟨tablesOneClient, []⟩).1 = 0x33 ∧
    (dceclientStateUnload_IMPL dceEnvDeinitFails 5 ⟨tablesOneClient, []⟩).1 ≠ NV_OK := by
  decide

/-- C14, amended: with the PM-transition bit set the state-unload hook calls the
session deinit once and then, whatever it answered, tears the transport down
exactly once; the status returned is the one the session deinit answered (its
failure status when it failed). -/
theorem C14_unload_continues_teardown (env : DceEnv) (flags : Nat) (m : DceMachine)
    (hf : flags &&& GPU_STATE_FLAGS_PM_TRANSITION ≠ 0) :
    unloadEvents env flags m =
      [DceEvent.dceclientDceRmInit false (dceclientStateUnload_IMPL env flags m).1,
       DceEvent.dceclientDeinitRpcInfra] := by
  simp [dceclientStateUnload_IMPL, unloadEvents, hf]

/-- C14 amended, at a concrete input: the failing deinit is followed by the
teardown. -/
theorem C14_unload_witness :
    unloadEvents dceEnvDeinitFails 5 ⟨tablesOneClient, []⟩ =
      [DceEvent.dceclientDceRmInit false
        (dceclientStateUnload_IMPL dceEnvDeinitFails 5 ⟨tablesOneClient, []⟩).1,
       DceEvent.dceclientDeinitRpcInfra] :=
  C14_unload_continues_teardown dceEnvDeinitFails 5 ⟨tablesOneClient, []⟩ (by decide)

/-! ## The controller: unrecognized actions, flushes, markers -/

/-- C15: for an action that is none of Hibernate, Standby, Resume, with both locks
acquired, the dispatch fails with `NV_ERR_INVALID_ARGUMENT`, that status is what
the call returns whatever the recovery does, and `gpuStateUnload` is never
called. -/
theorem C15_unrecognized_action (env : Env) (a : nv_pm_action_t) (m : Machine)
    (h0 : a ≠ NV_PM_ACTION_HIBERNATE) (h1 : a ≠ NV_PM_ACTION_STANDBY)
    (h2 : a ≠ NV_PM_ACTION_RESUME)
    (hapi : Event.rmApiLockAcquire NV_OK ∈ newEvents env a m)
    (hgpus : Event.rmGpuLocksAcquire NV_OK ∈ newEvents env a m) :
    (rm_power_management env a m).1 = NV_ERR_INVALID_ARGUMENT ∧
    (dispatchCalls (newEvents env a m)).head? = some (a, NV_ERR_INVALID_ARGUMENT) ∧
    unloadStatuses (newEvents env a m) = [] := by
  obtain ⟨st, nv1, evs, e1, -, e3, ho⟩ := run_cases env a m
  rw [e1]
  rw [e3] at hapi hgpus ⊢
  cases ho with
  | apiFail f0 ra f1 hra => simp at hgpus
  | noGpu f0 f1 hg => simp at hgpus
  | gpusFail f0 rg f1 g hg hrg => simp at hgpus; exact absurd hgpus.symm hrg
  | locked f0 f1 g st nv1 body hg hp =>
    cases hp with
    | suspendOk gU fU ha hgU hfU hrU => rcases ha with ha | ha <;> contradiction
    | suspendFail gU fU rU gL fL rL ha hgU hfU hrU hne hgL hfL hrL =>
      rcases ha with ha | ha <;> contradiction
    | resume gL fL rL ha hh hgL hfL hrL => contradiction
    | resumeHibernated ha hh => contradiction
    | invalid gL fL rL n0 n1 n2 hh hgL hfL hrL => simp [dispatchCalls, unloadStatuses]
    | invalidHibernated n0 n1 n2 hh => simp [dispatchCalls, unloadStatuses]

/-- C15 at a concrete input: action value `9` while `gpuStateLoad` fails. -/
theorem C15_unrecognized_action_witness :
    (rm_power_management envStateFails 9 devIdle).1 = NV_ERR_INVALID_ARGUMENT ∧
    unloadStatuses (newEvents envStateFails 9 devIdle) = [] :=
  ⟨(C15_unrecognized_action envStateFails 9 devIdle (by decide) (by decide) (by decide)
      (by decide) (by decide)).1,
   (C15_unrecognized_action envStateFails 9 devIdle (by decide) (by decide) (by decide)
      (by decide) (by decide)).2.2⟩

/-- C16: on every call, whatever the action, the device and the answers of the
environment, exactly two of the added events are work-queue flushes: the first
event, directly followed by the API lock acquire, and the last event, directly
preceded by a lock operation. -/
theorem C16_two_flushes (env : Env) (a : nv_pm_action_t) (m : Machine) :
    ((newEvents env a m).filter Event.isFlush).length = 2 ∧
    (∃ f0, (newEvents env a m).head? = some (Event.os_flush_work_queue f0)) ∧
    (∃ ra, (newEvents env a m)[1]? = some (Event.rmApiLockAcquire ra)) ∧
    (∃ f1, (newEvents env a m).getLast? = some (Event.os_flush_work_queue f1)) ∧
    (∃ e, (newEvents env a m).dropLast.getLast? = some e ∧ e.isLock = true) := by
  obtain ⟨st, nv1, evs, -, -, e3, ho⟩ := run_cases env a m
  rw [e3]
  cases ho with
  | apiFail f0 ra f1 hra => simp [Event.isFlush, Event.isLock]
  | noGpu f0 f1 hg => simp [Event.isFlush, Event.isLock]
  | gpusFail f0 rg f1 g hg hrg => simp [Event.isFlush, Event.isLock]
  | locked f0 f1 g st nv1 body hg hp =>
    cases hp <;> simp [Event.isFlush, Event.isLock]

/-- C17: the status of the state-load hook.  A failing transport init is returned
unchanged and is the only call made; a failing session init gives
`NV_ERR_GENERIC` and no allocate call is made; in every case the status is
`NV_OK`, `NV_ERR_GENERIC` or the failure status of the transport init.  (This
holds for every flags value; without the PM-transition bit the status is
`NV_OK`.) -/
theorem C17_state_load_status (env : DceEnv) (n : Nat) (pGpu : OBJGPU) (flags : Nat)
    (m : DceMachine) :
    (∀ r1, r1 ≠ NV_OK →
      DceEvent.dceclientInitRpcInfra r1 ∈ loadEvents env n pGpu flags m →
      (dceclientStateLoad_IMPL env n pGpu flags m).1 = r1 ∧
      loadEvents env n pGpu flags m = [DceEvent.dceclientInitRpcInfra r1]) ∧
    (∀ r2, r2 ≠ NV_OK →
      DceEvent.dceclientDceRmInit true r2 ∈ loadEvents env n pGpu flags m →
      (dceclientStateLoad_IMPL env n pGpu flags m).1 = NV_ERR_GENERIC ∧
      loadEvents env n pGpu flags m =
        [DceEvent.dceclientInitRpcInfra NV_OK, DceEvent.dceclientDceRmInit true r2]) ∧
    ((dceclientStateLoad_IMPL env n pGpu flags m).1 = NV_OK ∨
      (dceclientStateLoad_IMPL env n pGpu flags m).1 = NV_ERR_GENERIC ∨
      ((dceclientStateLoad_IMPL env n pGpu flags m).1 ≠ NV_OK ∧
        loadEvents env n pGpu flags m =
          [DceEvent.dceclientInitRpcInfra (dceclientStateLoad_IMPL env n pGpu flags m).1])) := by
  obtain ⟨st, evs, e1, -, e3, ho⟩ := stateLoad_cases env n pGpu flags m
  rw [e1, e3]
  cases ho with
  | notPm hf => simp
  | rpcInitFail r1 hf h1 =>
    refine ⟨?_, ?_, Or.inr (Or.inr ⟨h1, rfl⟩)⟩
    · intro r hr hmem
      simp at hmem
      subst hmem
      exact ⟨rfl, rfl⟩
    · intro r hr hmem
      simp at hmem
  | rmInitFail r2 hf h2 =>
    refine ⟨?_, ?_, Or.inr (Or.inl rfl)⟩
    · intro r hr hmem
      simp at hmem
      exact absurd hmem hr
    · intro r hr hmem
      simp at hmem
      subst hmem
      exact ⟨rfl, rfl⟩
  | noReplay hf hp =>
    refine ⟨?_, ?_, Or.inl rfl⟩
    · intro r hr hmem
      simp at hmem
      exact absurd hmem hr
    · intro r hr hmem
      simp at hmem
      exact absurd hmem hr
  | replayOk hf hp =>
    refine ⟨?_, ?_, Or.inl rfl⟩
    · intro r hr hmem
      simp [allocCall] at hmem
      exact absurd hmem hr
    · intro r hr hmem
      simp [allocCall] at hmem
      exact absurd hmem hr
  | replayFail k s r hf hp hk hr =>
    refine ⟨?_, ?_, Or.inr (Or.inl rfl)⟩
    · intro r1 hr1 hmem
      rcases List.mem_append.mp hmem with h | h
      · rcases List.mem_append.mp h with h | h
        · simp at h
          exact absurd h hr1
        · exact absurd (isAlloc_of_mem_map h) (by simp [DceEvent.isAlloc])
      · simp [allocCall] at h
    · intro r2 hr2 hmem
      rcases List.mem_append.mp hmem with h | h
      · rcases List.mem_append.mp h with h | h
        · simp at h
          exact absurd h hr2
        · exact absurd (isAlloc_of_mem_map h) (by simp [DceEvent.isAlloc])
      · simp [allocCall] at h

/-- C17 at concrete inputs: a transport init failing with `0x22` is returned as
it is; a session init failing with `0x23` is returned as `NV_ERR_GENERIC`. -/
theorem C17_state_load_status_witness :
    (dceclientStateLoad_IMPL dceEnvRpcInitFails 2 gpuResuming 5 ⟨tablesOneClient, []⟩).1
      = 0x22 ∧
    (dceclientStateLoad_IMPL dceEnvSessionInitFails 2 gpuResuming 5 ⟨tablesOneClient, []⟩).1
      = NV_ERR_GENERIC :=
  ⟨((C17_state_load_status dceEnvRpcInitFails 2 gpuResuming 5 ⟨tablesOneClient, []⟩).1
      0x22 (by decide) (by decide)).1,
   ((C17_state_load_status dceEnvSessionInitFails 2 gpuResuming 5 ⟨tablesOneClient, []⟩).2.1
      0x23 (by decide) (by decide)).1⟩

theorem stateFlags_facts (env : Env) (t : List Event) (g : OBJGPU) :
    stateFlags env t g =
      (if env.IS_GPU_GC6_STATE_ENTERING t g then
        GPU_STATE_FLAGS_PRESERVING ||| GPU_STATE_FLAGS_PM_TRANSITION |||
          GPU_STATE_FLAGS_GC6_TRANSITION
      else GPU_STATE_FLAGS_PRESERVING ||| GPU_STATE_FLAGS_PM_TRANSITION) ∧
    stateFlags env t g &&& GPU_STATE_FLAGS_PM_TRANSITION ≠ 0 ∧
    stateFlags env t g &&& GPU_STATE_FLAGS_PRESERVING ≠ 0 ∧
    (stateFlags env t g &&& GPU_STATE_FLAGS_GC6_TRANSITION ≠ 0 ↔
      env.IS_GPU_GC6_STATE_ENTERING t g = true) := by
  unfold stateFlags
  cases env.IS_GPU_GC6_STATE_ENTERING t g <;> simp <;> decide

/-- C18: what the external state calls see.  Entered at Hibernate or Standby with
a bound GPU, the dispatch calls `gpuStateUnload` exactly once and nothing else;
the GPU object it is given has `InPmCodepath` already true and `InStandby` still
as on entry, and `InStandby` is true on return.  Entered at Resume with
`InHibernate` false, it calls `gpuStateLoad` exactly once and nothing else, with
`InPmResumeCodepath` already true.  In both cases the flags are
`Preserving | PmTransition`, with `Gc6Transition` added iff
`IS_GPU_GC6_STATE_ENTERING` holds at the call, so they always contain
`PmTransition`. -/
theorem C18_state_calls_see_markers (env : Env) (hib : Bool) (g : OBJGPU) (t0 : List Event) :
    (∀ a, a = NV_PM_ACTION_HIBERNATE ∨ a = NV_PM_ACTION_STANDBY →
      ∃ f r,
        RmPowerManagementInternalTegra env a ⟨⟨hib, some g⟩, t0⟩ =
          (r, ⟨⟨false, some ⟨true, true, g.PDB_PROP_GPU_IN_PM_RESUME_CODEPATH⟩⟩,
            t0 ++ [Event.gpuStateUnload
                ⟨true, g.PDB_PROP_GPU_IN_STANDBY, g.PDB_PROP_GPU_IN_PM_RESUME_CODEPATH⟩ f r,
              Event.dispatch a r]⟩) ∧
        f = (if env.IS_GPU_GC6_STATE_ENTERING t0
              ⟨true, g.PDB_PROP_GPU_IN_STANDBY, g.PDB_PROP_GPU_IN_PM_RESUME_CODEPATH⟩ then
            GPU_STATE_FLAGS_PRESERVING ||| GPU_STATE_FLAGS_PM_TRANSITION |||
              GPU_STATE_FLAGS_GC6_TRANSITION
          else GPU_STATE_FLAGS_PRESERVING ||| GPU_STATE_FLAGS_PM_TRANSITION) ∧
        f &&& GPU_STATE_FLAGS_PM_TRANSITION ≠ 0 ∧
        (f &&& GPU_STATE_FLAGS_GC6_TRANSITION ≠ 0 ↔
          env.IS_GPU_GC6_STATE_ENTERING t0
            ⟨true, g.PDB_PROP_GPU_IN_STANDBY, g.PDB_PROP_GPU_IN_PM_RESUME_CODEPATH⟩ = true)) ∧
    (∃ f r,
      RmPowerManagementInternalTegra env NV_PM_ACTION_RESUME ⟨⟨false, some g⟩, t0⟩ =
        (r, ⟨⟨false, some ⟨false, false, false⟩⟩,
          t0 ++ [Event.gpuStateLoad
              ⟨g.PDB_PROP_GPU_IN_PM_CODEPATH, g.PDB_PROP_GPU_IN_STANDBY, true⟩ f r,
            Event.dispatch NV_PM_ACTION_RESUME r]⟩) ∧
      f = (if env.IS_GPU_GC6_STATE_ENTERING t0
            ⟨g.PDB_PROP_GPU_IN_PM_CODEPATH, g.PDB_PROP_GPU_IN_STANDBY, true⟩ then
          GPU_STATE_FLAGS_PRESERVING ||| GPU_STATE_FLAGS_PM_TRANSITION |||
            GPU_STATE_FLAGS_GC6_TRANSITION
        else GPU_STATE_FLAGS_PRESERVING ||| GPU_STATE_FLAGS_PM_TRANSITION) ∧
      f &&& GPU_STATE_FLAGS_PM_TRANSITION ≠ 0 ∧
      (f &&& GPU_STATE_FLAGS_GC6_TRANSITION ≠ 0 ↔
        env.IS_GPU_GC6_STATE_ENTERING t0
          ⟨g.PDB_PROP_GPU_IN_PM_CODEPATH, g.PDB_PROP_GPU_IN_STANDBY, true⟩ = true)) := by
  constructor
  · intro a ha
    have hf := stateFlags_facts env t0
      ⟨true, g.PDB_PROP_GPU_IN_STANDBY, g.PDB_PROP_GPU_IN_PM_RESUME_CODEPATH⟩
    exact ⟨_, _, dispatch_suspend env a hib g t0 ha, hf.1, hf.2.1, hf.2.2.2⟩
  · have hf := stateFlags_facts env t0
      ⟨g.PDB_PROP_GPU_IN_PM_CODEPATH, g.PDB_PROP_GPU_IN_STANDBY, true⟩
    exact ⟨_, _, dispatch_resume_awake env g t0, hf.1, hf.2.1, hf.2.2.2⟩

/-! ## `InHibernate` over sequences of requests, failed suspends -/

theorem loadStatuses_append (t1 t2 : List Event) :
    loadStatuses (t1 ++ t2) = loadStatuses t1 ++ loadStatuses t2 := by
  induction t1 with
  | nil => rfl
  | cons e rest ih => cases e <;> simp [loadStatuses, ih]

theorem resumeStatuses_append (t1 t2 : List Event) :
    resumeStatuses (t1 ++ t2) = resumeStatuses t1 ++ resumeStatuses t2 := by
  induction t1 with
  | nil => rfl
  | cons e rest ih =>
    cases e with
    | dispatch a r =>
      by_cases ha : a = NV_PM_ACTION_RESUME <;> simp [resumeStatuses, ha, ih]
    | _ => simp [resumeStatuses, ih]

/-- One call from a device with `InHibernate` false: it stays false and every
Resume dispatch of the call made its `gpuStateLoad` call. -/
theorem call_keeps_awake (env : Env) (a : nv_pm_action_t) (m : Machine)
    (hm : m.nv.InHibernate = false) :
    ∃ evs, (rm_power_management env a m).2.trace = m.trace ++ evs ∧
      (rm_power_management env a m).2.nv.InHibernate = false ∧
      loadStatuses evs = resumeStatuses evs := by
  obtain ⟨st, nv1, evs, h, ho⟩ := rm_power_management_outcome env a m
  refine ⟨evs, by rw [h], ?_⟩
  rw [h]
  cases ho with
  | apiFail f0 ra f1 hra => exact ⟨hm, rfl⟩
  | noGpu f0 f1 hg => exact ⟨hm, rfl⟩
  | gpusFail f0 rg f1 g hg hrg => exact ⟨hm, rfl⟩
  | locked f0 f1 g st nv1 body hg hp =>
    cases hp with
    | suspendOk gU fU ha hgU hfU hrU =>
      have := suspend_ne_resume ha
      simp [loadStatuses, resumeStatuses, this]
    | suspendFail gU fU rU gL fL rL ha hgU hfU hrU hne hgL hfL hrL =>
      have := suspend_ne_resume ha
      simp [loadStatuses, resumeStatuses, this]
    | resume gL fL rL ha hh hgL hfL hrL => simp [loadStatuses, resumeStatuses]
    | resumeHibernated ha hh => rw [hm] at hh; exact absurd hh (by decide)
    | invalid gL fL rL n0 n1 n2 hh hgL hfL hrL => simp [loadStatuses, resumeStatuses, n2]
    | invalidHibernated n0 n1 n2 hh => rw [hm] at hh; exact absurd hh (by decide)

theorem sequence_keeps_awake (env : Env) (actions : List nv_pm_action_t) (m : Machine)
    (hm : m.nv.InHibernate = false) :
    ∃ evs, (requestSequence env actions m).trace = m.trace ++ evs ∧
      (requestSequence env actions m).nv.InHibernate = false ∧
      loadStatuses evs = resumeStatuses evs := by
  induction actions generalizing m with
  | nil => exact ⟨[], by simp [requestSequence], hm, rfl⟩
  | cons a rest ih =>
    obtain ⟨e1, ht1, hh1, hl1⟩ := call_keeps_awake env a m hm
    obtain ⟨e2, ht2, hh2, hl2⟩ := ih (rm_power_management env a m).2 hh1
    refine ⟨e1 ++ e2, ?_, hh2, ?_⟩
    · rw [requestSequence, ht2, ht1, List.append_assoc]
    · rw [loadStatuses_append, resumeStatuses_append, hl1, hl2]

/-- C19: `InHibernate = false` is an invariant.  A call started with `InHibernate`
false ends with it false, for every action and environment; a Hibernate or
Standby request that reaches the dispatch ends with it false whatever it was;
and over any sequence of requests started with `InHibernate` false it stays
false and every Resume dispatch made its `gpuStateLoad` call (the statuses of
the `gpuStateLoad` calls are exactly the statuses of the Resume dispatches), so
the no-op branch is never taken. -/
theorem C19_inHibernate_invariant (env : Env) :
    (∀ a m, m.nv.InHibernate = false →
      (rm_power_management env a m).2.nv.InHibernate = false) ∧
    (∀ a m, a = NV_PM_ACTION_HIBERNATE ∨ a = NV_PM_ACTION_STANDBY →
      dispatchCalls (newEvents env a m) ≠ [] →
      (rm_power_management env a m).2.nv.InHibernate = false) ∧
    (∀ actions m, m.nv.InHibernate = false →
      (requestSequence env actions m).nv.InHibernate = false ∧
      loadStatuses ((requestSequence env actions m).trace.drop m.trace.length) =
        resumeStatuses ((requestSequence env actions m).trace.drop m.trace.length)) := by
  refine ⟨?_, ?_, ?_⟩
  · intro a m hm
    obtain ⟨evs, -, h, -⟩ := call_keeps_awake env a m hm
    exact h
  · intro a m ha hd
    obtain ⟨st, nv1, evs, -, e2, e3, ho⟩ := run_cases env a m
    rw [e2]
    rw [e3] at hd
    cases ho with
    | apiFail f0 ra f1 hra => simp [dispatchCalls] at hd
    | noGpu f0 f1 hg => simp [dispatchCalls] at hd
    | gpusFail f0 rg f1 g hg hrg => simp [dispatchCalls] at hd
    | locked f0 f1 g st nv1 body hg hp =>
      cases hp with
      | suspendOk gU fU ha hgU hfU hrU => rfl
      | suspendFail gU fU rU gL fL rL ha hgU hfU hrU hne hgL hfL hrL => rfl
      | resume gL fL rL ha2 hh hgL hfL hrL => rfl
      | resumeHibernated ha2 hh => exact absurd ha2 (suspend_ne_resume ha)
      | invalid gL fL rL n0 n1 n2 hh hgL hfL hrL => rfl
      | invalidHibernated n0 n1 n2 hh => rcases ha with ha | ha <;> contradiction
  · intro actions m hm
    obtain ⟨evs, ht, hh, hl⟩ := sequence_keeps_awake env actions m hm
    refine ⟨hh, ?_⟩
    rw [ht, List.drop_left]
    exact hl

/-- C19 at a concrete input: Hibernate, Resume, action `9`, Standby (whose unload
fails), Resume, with every state call failing; `InHibernate` ends false and the
three Resume dispatches each called `gpuStateLoad`. -/
theorem C19_inHibernate_witness :
    (requestSequence envStateFails [0, 2, 9, 1, 2] devIdle).nv.InHibernate = false ∧
    loadStatuses (requestSequence envStateFails [0, 2, 9, 1, 2] devIdle).trace =
      resumeStatuses (requestSequence envStateFails [0, 2, 9, 1, 2] devIdle).trace :=
  (C19_inHibernate_invariant envStateFails).2.2 [0, 2, 9, 1, 2] devIdle rfl

/-- C20: a failed request other than Resume does not leave the device marked as
suspended.  With both locks acquired, when the dispatch of an action other than
Resume fails and `InHibernate` is false when the recovery starts (the action is
Hibernate or Standby, which clear it, or it was false on entry, an unrecognized
action leaving it alone), the recovery is the one Resume dispatch of the call,
it calls `gpuStateLoad` exactly once, and the call ends with `InStandby`,
`InPmCodepath` and `InPmResumeCodepath` false whatever `gpuStateLoad` answers;
the status returned is still the failure of the first dispatch. -/
theorem C20_failed_suspend_recovers (env : Env) (a : nv_pm_action_t) (m : Machine)
    (r : NV_STATUS) (hne : a ≠ NV_PM_ACTION_RESUME)
    (hapi : Event.rmApiLockAcquire NV_OK ∈ newEvents env a m)
    (hgpus : Event.rmGpuLocksAcquire NV_OK ∈ newEvents env a m)
    (hfirst : (dispatchCalls (newEvents env a m)).head? = some (a, r)) (hr : r ≠ NV_OK)
    (hrec : (a = NV_PM_ACTION_HIBERNATE ∨ a = NV_PM_ACTION_STANDBY) ∨
      m.nv.InHibernate = false) :
    (∃ rl, loadStatuses (newEvents env a m) = [rl] ∧
      dispatchCalls (newEvents env a m) = [(a, r), (NV_PM_ACTION_RESUME, rl)]) ∧
    (rm_power_management env a m).2.nv.pGpu = some ⟨false, false, false⟩ ∧
    (rm_power_management env a m).1 = r := by
  obtain ⟨st, nv1, evs, e1, e2, e3, ho⟩ := run_cases env a m
  rw [e1, e2]
  rw [e3] at hapi hgpus hfirst ⊢
  cases ho with
  | apiFail f0 ra f1 hra => simp at hgpus
  | noGpu f0 f1 hg => simp at hgpus
  | gpusFail f0 rg f1 g hg hrg => simp at hgpus; exact absurd hgpus.symm hrg
  | locked f0 f1 g st nv1 body hg hp =>
    cases hp with
    | suspendOk gU fU ha hgU hfU hrU =>
      simp [dispatchCalls] at hfirst
      exact absurd hfirst.symm hr
    | suspendFail gU fU rU gL fL rL ha hgU hfU hrU hne2 hgL hfL hrL =>
      simp [dispatchCalls] at hfirst
      subst hfirst
      simp [loadStatuses, dispatchCalls]
    | resume gL fL rL ha hh hgL hfL hrL => exact absurd ha hne
    | resumeHibernated ha hh => exact absurd ha hne
    | invalid gL fL rL n0 n1 n2 hh hgL hfL hrL =>
      simp [dispatchCalls] at hfirst
      subst hfirst
      simp [loadStatuses, dispatchCalls]
    | invalidHibernated n0 n1 n2 hh =>
      rcases hrec with (h | h) | h
      · exact absurd h n0
      · exact absurd h n1
      · rw [h] at hh; exact absurd hh (by decide)

/-- C20 at a concrete input: the unrecognized action `9` on a suspended device;
the recovery calls `gpuStateLoad` once (it fails with `0x40`), the three flags end
false and `NV_ERR_INVALID_ARGUMENT` is returned. -/
theorem C20_failed_suspend_witness :
    loadStatuses (newEvents envStateFails 9 devSuspended) = [0x40] ∧
    (rm_power_management envStateFails 9 devSuspended).2.nv.pGpu =
      some ⟨false, false, false⟩ ∧
    (rm_power_management envStateFails 9 devSuspended).1 = NV_ERR_INVALID_ARGUMENT :=
  ⟨by decide,
   (C20_failed_suspend_recovers envStateFails 9 devSuspended NV_ERR_INVALID_ARGUMENT
      (by decide) (by decide) (by decide) (by decide) (by decide) (Or.inr rfl)).2⟩

end Tegra
